import Mathlib

/-!
# MySQLOO: the transaction runner (`source/Transaction.cpp`)

A shallow embedding of `Transaction::executeStatement`, `Transaction::doCallback`,
`Transaction::buildQueryData` and the queue operations of `addQuery` and `clearQueries`,
with the data they work on, followed by theorems about them.

The MySQL connection is an external collaborator.  Its behaviour is a parameter
(`Server`): every answer of the connection is a function of the complete history of
calls made on it so far, so a `Server` stands for an arbitrary deterministic
connection behaviour (answers may change from one attempt to the next).
The history itself (`State.connection`) is ghost state: the C++ code never reads it;
it is kept so that theorems can speak about which calls were made, in which order,
and what the auto-reconnect flag was at each of them.
-/

namespace MySQLOO

/-! ## Data model -/

/-- Result status of a query (`QueryResultStatus`). -/
inductive QueryResultStatus where
  | QUERY_NONE
  | QUERY_ERROR
  | QUERY_SUCCESS
deriving DecidableEq, Repr

/-- Life-cycle status of a query (`QueryStatus`). -/
inductive QueryStatus where
  | QUERY_NOT_RUNNING
  | QUERY_RUNNING
  | QUERY_COMPLETE
  | QUERY_ABORTED
  | QUERY_WAITING
deriving DecidableEq, Repr

/-- The exception type caught in `executeStatement`: `getErrorCode()` and `what()`. -/
structure MySQLException where
  errorCode : Int
  what : String
deriving DecidableEq, Repr

/-- Client error code `CR_UNKNOWN_ERROR` of the MySQL client library (`errmsg.h`). -/
def CR_UNKNOWN_ERROR : Int := 2000

/-- Client error code `CR_SERVER_GONE_ERROR` of the MySQL client library (`errmsg.h`). -/
def CR_SERVER_GONE_ERROR : Int := 2006

/-- Client error code `CR_SERVER_LOST` of the MySQL client library (`errmsg.h`). -/
def CR_SERVER_LOST : Int := 2013

/-- Identity of a `Query` object (the first component of a pair in `m_queries`). -/
abbrev Query := Nat

/-- Modelled from the spec: the class `IQueryData` is declared in a header that is not part of
the source; these are the fields of a StatementUnit (section 3 of the spec) under the names
of the accessors that `Transaction.cpp` calls on it. -/
structure IQueryData where
  m_errorText : String
  finished : Bool
  m_status : QueryStatus
  m_resultStatus : QueryResultStatus
  m_errorReference : Int
  m_successReference : Int
  m_wasFirstData : Bool
deriving DecidableEq, Repr

namespace IQueryData

def setResultStatus (d : IQueryData) (status : QueryResultStatus) : IQueryData :=
  { d with m_resultStatus := status }

def getResultStatus (d : IQueryData) : QueryResultStatus := d.m_resultStatus

def setError (d : IQueryData) (err : String) : IQueryData :=
  { d with m_errorText := err }

def getError (d : IQueryData) : String := d.m_errorText

def setFinished (d : IQueryData) (isFinished : Bool) : IQueryData :=
  { d with finished := isFinished }

def isFinished (d : IQueryData) : Bool := d.finished

def setStatus (d : IQueryData) (status : QueryStatus) : IQueryData :=
  { d with m_status := status }

def getStatus (d : IQueryData) : QueryStatus := d.m_status

end IQueryData

/-- Modelled from the spec: `TransactionData` (a TransactionBatch) is declared in a header
that is not part of the source: the batch-level `IQueryData` fields, the ordered pairs
`m_queries` and the `retried` flag. -/
structure TransactionData where
  base : IQueryData
  m_queries : List (Query × IQueryData)
  retried : Bool
deriving DecidableEq, Repr

/-- A call made on the `MYSQL*` connection.  `executeQuery` carries the position of the
pair in `m_queries` and the query object. -/
inductive Call where
  | autocommit (mode : Bool)
  | executeQuery (idx : Nat) (query : Query)
  | commit
  | ping
  | rollback
deriving DecidableEq, Repr

/-- One entry of the connection history: the call and the value of the database's
auto-reconnect flag at the moment of the call. -/
structure Event where
  call : Call
  reconnect : Bool
deriving DecidableEq, Repr

/-- The behaviour of the connection.  Each answer is a function of the history of calls
up to and including the present one (its last entry).

* `mysqlAutocommit`: Modelled from the spec: `IQuery::mysqlAutocommit` is not part of the
  source; it is a parameter that either returns (`none`) or raises a `MySQLException`.
* `executeQuery`: `Query::executeQuery` (not part of the source): returns or raises.
* `mysql_commit`, `mysql_ping`, `mysql_rollback`, `mysql_autocommit`: the C API, whose
  return value is zero on success. -/
structure Server where
  mysqlAutocommit : List Event → Bool → Option MySQLException
  executeQuery : List Event → Nat → Query → IQueryData → Option MySQLException
  mysql_commit : List Event → Int
  mysql_ping : List Event → Int
  mysql_rollback : List Event → Int
  mysql_autocommit : List Event → Bool → Int

/-- Modelled from the spec: the part of `Database` that `executeStatement` touches, the
auto-reconnect flag behind `getAutoReconnect`/`setAutoReconnect` and the completion queue
`finishedQueries` (oldest entry first). -/
structure Database where
  m_autoReconnect : Bool
  finishedQueries : List (Query × IQueryData)
deriving DecidableEq, Repr

namespace Database

def getAutoReconnect (db : Database) : Bool := db.m_autoReconnect

def setAutoReconnect (db : Database) (autoReconnect : Bool) : Database :=
  { db with m_autoReconnect := autoReconnect }

/-- The call `finishedQueries.put(query)`. -/
def put (db : Database) (query : Query × IQueryData) : Database :=
  { db with finishedQueries := db.finishedQueries ++ [query] }

end Database

/-- Everything one call of `executeStatement` reads or writes: `m_database`, the history of
the `MYSQL*` connection (ghost) and the `TransactionData` behind `ptr`. -/
structure State where
  database : Database
  connection : List Event
  data : TransactionData
deriving DecidableEq, Repr

namespace State

/-- Append a call to the connection history, stamped with the current auto-reconnect flag. -/
def record (s : State) (c : Call) : State :=
  { s with connection := s.connection ++ [⟨c, s.database.getAutoReconnect⟩] }

def setAutoReconnect (s : State) (b : Bool) : State :=
  { s with database := s.database.setAutoReconnect b }

def setStatus (s : State) (status : QueryStatus) : State :=
  { s with data := { s.data with base := s.data.base.setStatus status } }

def setResultStatus (s : State) (status : QueryResultStatus) : State :=
  { s with data := { s.data with base := s.data.base.setResultStatus status } }

def setError (s : State) (err : String) : State :=
  { s with data := { s.data with base := s.data.base.setError err } }

end State

/-! ## `Transaction::executeStatement` -/

/-- Lines 86-102: the loop over `data->m_queries`.  `hist` is the connection history,
`reconnect` the (unchanging) auto-reconnect flag, `idx` the position of the head of the
list in the batch.  Returns the history, the updated pairs and the exception that left the
loop, if any. -/
def executeQueries (srv : Server) (reconnect : Bool) :
    List Event → Nat → List (Query × IQueryData) →
      List Event × List (Query × IQueryData) × Option MySQLException
  | hist, _, [] => (hist, [], none)
  | hist, idx, (curquery, curdata) :: rest =>
    let curdata := (curdata.setResultStatus .QUERY_NONE).setError ""
    let hist := hist ++ [⟨.executeQuery idx curquery, reconnect⟩]
    match srv.executeQuery hist idx curquery curdata with
    | none =>
      let curdata := (curdata.setResultStatus .QUERY_SUCCESS).setFinished true
      let r := executeQueries srv reconnect hist (idx + 1) rest
      (r.1, (curquery, curdata) :: r.2.1, r.2.2)
    | some error =>
      let curdata :=
        ((curdata.setResultStatus .QUERY_ERROR).setError error.what).setFinished true
      (hist, (curquery, curdata) :: rest, some error)

/-- Lines 84-107: the body of the outer `try`.  Returns the state and the exception that
reaches the outer `catch`, if any. -/
def tryBlock (srv : Server) (s : State) : State × Option MySQLException :=
  let s := s.record (.autocommit false)
  match srv.mysqlAutocommit s.connection false with
  | some error => (s, some error)
  | none =>
    let r := executeQueries srv s.database.getAutoReconnect s.connection 0 s.data.m_queries
    let s : State := { s with connection := r.1, data := { s.data with m_queries := r.2.1 } }
    match r.2.2 with
    | some error => (s, some error)
    | none =>
      let s := s.record .commit
      if srv.mysql_commit s.connection ≠ 0 then
        (s, some ⟨CR_UNKNOWN_ERROR, "commit failed"⟩)
      else
        (s.setResultStatus .QUERY_SUCCESS, none)

/-- Lines 133-144: every pair whose data is finished is put on `finishedQueries`, in the
order of `m_queries`.  (The wake-up of the waiting thread is not modelled.) -/
def putFinished (db : Database) : List (Query × IQueryData) → Database
  | [] => db
  | query :: rest =>
    if !query.2.isFinished then putFinished db rest
    else putFinished (db.put query) rest

/-- Lines 133-152 followed by the scope guard of line 82: deliver the finished pairs, turn
autocommit back on (result ignored), mark the batch complete, restore the auto-reconnect
flag and return `true`. -/
def finishBlock (oldReconnectStatus : Bool) (s : State) : State × Bool :=
  let s : State := { s with database := putFinished s.database s.data.m_queries }
  let s := s.record (.autocommit true)
  let s := s.setStatus .QUERY_COMPLETE
  (s.setAutoReconnect oldReconnectStatus, true)

/-- Lines 120-123: reset every pair's finished flag and mark the batch as retried. -/
def prepareRetry (s : State) : State :=
  { s with data := { s.data with
      m_queries := s.data.m_queries.map (fun query => (query.1, query.2.setFinished false)),
      retried := true } }

/-- The test of lines 113-114. -/
def shouldReconnect (oldReconnectStatus retried : Bool) (errorCode : Int) : Bool :=
  oldReconnectStatus && !retried &&
    (errorCode == CR_SERVER_LOST || errorCode == CR_SERVER_GONE_ERROR)

/-- The function `Transaction::executeStatement(connection, ptr)`. -/
def executeStatement (srv : Server) (s : State) : State × Bool :=
  let s0 := s.setStatus .QUERY_RUNNING
  let oldReconnectStatus := s0.database.getAutoReconnect
  let s1 := s0.setAutoReconnect false
  match (tryBlock srv s1).2 with
  | none => finishBlock oldReconnectStatus (tryBlock srv s1).1
  | some error =>
    let s2 := ((tryBlock srv s1).1.setResultStatus .QUERY_ERROR).setError error.what
    let errorCode := error.errorCode
    if hc : shouldReconnect oldReconnectStatus s2.data.retried errorCode = true then
      let s3 := (s2.setAutoReconnect true).record .ping
      if srv.mysql_ping s3.connection = 0 then
        let r := executeStatement srv (prepareRetry s3)
        (r.1.setAutoReconnect oldReconnectStatus, r.2)
      else
        let s4 := s3.record .rollback
        finishBlock oldReconnectStatus s4
    else
      let s4 := s2.record .rollback
      finishBlock oldReconnectStatus s4
termination_by (if s.data.retried then 0 else 1)
decreasing_by
  have h1 : (tryBlock srv ((s.setStatus .QUERY_RUNNING).setAutoReconnect false)).1.data.retried =
      ((s.setStatus .QUERY_RUNNING).setAutoReconnect false).data.retried := by
    unfold tryBlock
    simp only [State.record]
    split
    · rfl
    · split
      · rfl
      · split <;> rfl
  simp only [shouldReconnect, State.setResultStatus, State.setError, Bool.and_eq_true,
    Bool.not_eq_true'] at hc
  simp only [State.setStatus, State.setAutoReconnect] at h1 hc
  have h2 : s.data.retried = false := by
    rw [← h1]; exact hc.1.2
  simp [prepareRetry, h2]

/-! ## The other functions of `Transaction.cpp` -/

namespace IQueryData

def getErrorReference (d : IQueryData) : Int := d.m_errorReference

def getSuccessReference (d : IQueryData) : Int := d.m_successReference

def isFirstData (d : IQueryData) : Bool := d.m_wasFirstData

end IQueryData

/-- A call into Lua made by `doCallback`: `runFunction` with a function reference or
`runCallback` with the name of a callback of the object, each with its string arguments. -/
inductive Invocation where
  | runFunction (reference : Int) (args : List String)
  | runCallback (name : String) (args : List String)
deriving DecidableEq, Repr

/-- The function `Transaction::doCallback(LUA, ptr)`, lines 50-71.  Returns the data behind
`ptr` and the calls into Lua that were made, in order. -/
def doCallback (data : TransactionData) : TransactionData × List Invocation :=
  let data : TransactionData := { data with base := data.base.setStatus .QUERY_COMPLETE }
  match data.base.getResultStatus with
  | .QUERY_NONE => (data, [])
  | .QUERY_ERROR =>
    if data.base.getErrorReference ≠ 0 then
      (data, [.runFunction data.base.getErrorReference [data.base.getError]])
    else if data.base.isFirstData then
      (data, [.runCallback "onError" [data.base.getError]])
    else (data, [])
  | .QUERY_SUCCESS =>
    if data.base.getSuccessReference ≠ 0 then
      (data, [.runFunction data.base.getSuccessReference []])
    else if data.base.isFirstData then
      (data, [.runCallback "onSuccess" []])
    else (data, [])

/-- The part of a `Transaction` object that `Transaction.cpp` works on: the queued pairs
`m_queries`, oldest first. -/
structure Transaction where
  m_queries : List (Query × IQueryData)
deriving DecidableEq, Repr

/-- Line 33 of `Transaction::addQuery`: the pair of the query object and the query data
built for it is appended to `m_queries`.  (The checks of the Lua arguments and the
bookkeeping inside the query object are not modelled.) -/
def addQuery (transaction : Transaction) (queryPtr : Query) (queryData : IQueryData) :
    Transaction :=
  { transaction with m_queries := transaction.m_queries ++ [(queryPtr, queryData)] }

/-- Line 45 of `Transaction::clearQueries`. -/
def clearQueries (transaction : Transaction) : Transaction :=
  { transaction with m_queries := [] }

/-- Modelled from the spec: a default-constructed `TransactionData` (its constructor is in a
header that is not part of the source): no result, not finished, not retried, no pairs. -/
def newTransactionData : TransactionData :=
  { base :=
      { m_errorText := ""
        finished := false
        m_status := .QUERY_NOT_RUNNING
        m_resultStatus := .QUERY_NONE
        m_errorReference := 0
        m_successReference := 0
        m_wasFirstData := false }
    m_queries := []
    retried := false }

/-- The function `Transaction::buildQueryData`, lines 156-164: the new data and the
transaction object afterwards. -/
def buildQueryData (transaction : Transaction) : TransactionData × Transaction :=
  let data : TransactionData := newTransactionData
  let data : TransactionData := { data with m_queries := transaction.m_queries }
  (data, { transaction with m_queries := [] })

/-! ## Vocabulary for the theorems -/

/-- The history that the loop of lines 86-102 appends when it executes every pair of
`qs` (the first of them at position `idx`). -/
def queryEvents (reconnect : Bool) : Nat → List (Query × IQueryData) → List Event
  | _, [] => []
  | idx, query :: rest =>
    ⟨.executeQuery idx query.1, reconnect⟩ :: queryEvents reconnect (idx + 1) rest

/-- What lines 90-95 leave in a unit whose statement succeeded. -/
def markSuccess (query : Query × IQueryData) : Query × IQueryData :=
  (query.1, (((query.2.setResultStatus .QUERY_NONE).setError "").setResultStatus
    .QUERY_SUCCESS).setFinished true)

/-- What lines 90-99 leave in a unit whose statement raised `error`. -/
def markError (error : MySQLException) (query : Query × IQueryData) : Query × IQueryData :=
  (query.1, ((((query.2.setResultStatus .QUERY_NONE).setError "").setResultStatus
    .QUERY_ERROR).setError error.what).setFinished true)

/-- The events appended to the connection history between state `s` and state `r`. -/
def newEvents (s r : State) : List Event :=
  r.connection.drop s.connection.length

/-- The calls made on the connection between state `s` and state `r`. -/
def newCalls (s r : State) : List Call :=
  (newEvents s r).map Event.call

/-- The statements executed, in order, among a list of calls: position and query. -/
def executed : List Call → List (Nat × Query)
  | [] => []
  | .executeQuery idx query :: rest => (idx, query) :: executed rest
  | _ :: rest => executed rest

/-- How often the statement at position `idx` is executed among a list of calls. -/
def timesExecuted (idx : Nat) (calls : List Call) : Nat :=
  ((executed calls).filter (fun p => p.1 == idx)).length

/-- The pairs put on the completion queue between state `s` and state `r`. -/
def newlyFinished (s r : State) : List (Query × IQueryData) :=
  r.database.finishedQueries.drop s.database.finishedQueries.length

/-- The error code is one of the two connection-lost codes tested in line 114. -/
def isConnectionLost (errorCode : Int) : Bool :=
  errorCode == CR_SERVER_LOST || errorCode == CR_SERVER_GONE_ERROR

/-- The state in which the `try` block of a call entered in state `s` starts. -/
def entryState (s : State) : State :=
  (s.setStatus .QUERY_RUNNING).setAutoReconnect false

/-- The state after lines 109-110: the `try` block of a call entered in state `s` raised
`error`, and the batch has been given result status ERROR and the error's message. -/
def caughtState (srv : Server) (s : State) (error : MySQLException) : State :=
  ((tryBlock srv (entryState s)).1.setResultStatus .QUERY_ERROR).setError error.what

/-- The state in which `mysql_ping` is answered (line 119): auto-reconnect has been turned
back on and the ping is the last call of the history. -/
def pingState (srv : Server) (s : State) (error : MySQLException) : State :=
  ((caughtState srv s error).setAutoReconnect true).record .ping

/-- The call executes a statement of the batch or is `mysql_commit`. -/
def isStatementOrCommit : Call → Bool
  | .executeQuery _ _ => true
  | .commit => true
  | _ => false

/-- The call entered in state `s` reaches `mysql_ping` (line 119): its `try` block raises an
error that passes the test of lines 113-114. -/
def pings (srv : Server) (s : State) : Bool :=
  match (tryBlock srv (entryState s)).2 with
  | none => false
  | some error => shouldReconnect s.database.m_autoReconnect s.data.retried error.errorCode

/-- The call entered in state `s` makes a second attempt (line 124): it reaches
`mysql_ping` and the ping returns 0. -/
def retries (srv : Server) (s : State) : Bool :=
  match (tryBlock srv (entryState s)).2 with
  | none => false
  | some error =>
    shouldReconnect s.database.m_autoReconnect s.data.retried error.errorCode &&
      (srv.mysql_ping (pingState srv s error).connection == 0)

/-- The history contains a call of `mysql_ping`. -/
def pinged (hist : List Event) : Bool :=
  hist.any (fun e => e.call == .ping)

/-! ## Sample connections and batches -/

/-- A connection on which every call succeeds. -/
def healthyServer : Server :=
  { mysqlAutocommit := fun _ _ => none
    executeQuery := fun _ _ _ _ => none
    mysql_commit := fun _ => 0
    mysql_ping := fun _ => 0
    mysql_rollback := fun _ => 0
    mysql_autocommit := fun _ _ => 0 }

/-- A connection on which the statement at position `i` always raises `error` and every
other call succeeds. -/
def failingServer (i : Nat) (error : MySQLException) : Server :=
  { healthyServer with
    executeQuery := fun _ idx _ _ => if idx = i then some error else none }

/-- A freshly built unit: no result yet, not finished, no callbacks. -/
def freshUnit : IQueryData :=
  { m_errorText := ""
    finished := false
    m_status := .QUERY_NOT_RUNNING
    m_resultStatus := .QUERY_NONE
    m_errorReference := 0
    m_successReference := 0
    m_wasFirstData := false }

/-- A state with a fresh batch of the given query objects, auto-reconnect as given, an
empty completion queue and no history. -/
def freshState (autoReconnect : Bool) (queries : List Query) : State :=
  { database := { m_autoReconnect := autoReconnect, finishedQueries := [] }
    connection := []
    data := { base := freshUnit, m_queries := queries.map (fun q => (q, freshUnit)),
              retried := false } }

/-- A connection that is lost while the statement at position `i` is executed: that
statement raises `error` as long as the connection has not been pinged, and every call
made after a ping succeeds. -/
def reconnectingServer (i : Nat) (error : MySQLException) : Server :=
  { healthyServer with
    executeQuery := fun hist idx _ _ => if idx = i ∧ pinged hist = false then some error else none }

/-- A connection-lost error as the client library reports it. -/
def lostError : MySQLException :=
  { errorCode := CR_SERVER_LOST, what := "Lost connection to MySQL server during query" }

/-- A connection that is lost for good while the statement at position `i` is executed:
that statement always raises `error` and `mysql_ping` fails. -/
def deadServer (i : Nat) (error : MySQLException) : Server :=
  { failingServer i error with mysql_ping := fun _ => 1 }

/-- A finished unit with the given result status, error message, callback references and
first-data flag, wrapped as the data handed to `doCallback`. -/
def finishedData (status : QueryResultStatus) (err : String) (errorReference
    successReference : Int) (firstData : Bool) : TransactionData :=
  { base :=
      { m_errorText := err
        finished := true
        m_status := .QUERY_RUNNING
        m_resultStatus := status
        m_errorReference := errorReference
        m_successReference := successReference
        m_wasFirstData := firstData }
    m_queries := []
    retried := false }

/-- A transaction object to which the given pairs are appended one after the other with
`addQuery`. -/
def addQueries (transaction : Transaction) (pairs : List (Query × IQueryData)) : Transaction :=
  pairs.foldl (fun t p => addQuery t p.1 p.2) transaction

/-- A connection on which every statement succeeds and `mysql_commit` reports failure. -/
def commitFailingServer : Server :=
  { healthyServer with mysql_commit := fun _ => 1 }

/-! ## Unfolding one call -/

/-- The `try` block does not touch the `retried` flag. -/
theorem tryBlock_retried (srv : Server) (s : State) :
    (tryBlock srv s).1.data.retried = s.data.retried := by
  unfold tryBlock
  simp only [State.record]
  split
  · rfl
  · split
    · rfl
    · split <;> rfl

theorem executeStatement_eq (srv : Server) (s : State) :
    executeStatement srv s =
      match (tryBlock srv (entryState s)).2 with
      | none => finishBlock s.database.m_autoReconnect (tryBlock srv (entryState s)).1
      | some error =>
        let s2 := ((tryBlock srv (entryState s)).1.setResultStatus .QUERY_ERROR).setError
          error.what
        if shouldReconnect s.database.m_autoReconnect s.data.retried error.errorCode = true then
          let s3 := (s2.setAutoReconnect true).record .ping
          if srv.mysql_ping s3.connection = 0 then
            ((executeStatement srv (prepareRetry s3)).1.setAutoReconnect
              s.database.m_autoReconnect, (executeStatement srv (prepareRetry s3)).2)
          else finishBlock s.database.m_autoReconnect (s3.record .rollback)
        else finishBlock s.database.m_autoReconnect (s2.record .rollback) := by
  have h1 : ∀ st e, (((tryBlock srv (entryState s)).1.setResultStatus st).setError
      e).data.retried = s.data.retried := by
    intro st e
    have := tryBlock_retried srv (entryState s)
    simpa [State.setResultStatus, State.setError, entryState, State.setStatus,
      State.setAutoReconnect] using this
  rw [executeStatement]
  simp only [Database.getAutoReconnect]
  have h0 : (s.setStatus .QUERY_RUNNING).database.m_autoReconnect = s.database.m_autoReconnect :=
    rfl
  have h2 : (s.setStatus .QUERY_RUNNING).setAutoReconnect false = entryState s := rfl
  rw [h0, h2]
  split
  · rfl
  · simp only [h1, dite_eq_ite]

/-! ## The loop over the statements -/

theorem queryEvents_append (rc : Bool) : ∀ (l1 l2 : List (Query × IQueryData)) (idx : Nat),
    queryEvents rc idx (l1 ++ l2) = queryEvents rc idx l1 ++ queryEvents rc (idx + l1.length) l2
  | [], l2, idx => by simp [queryEvents]
  | q :: l1, l2, idx => by
    have ih := queryEvents_append rc l1 l2 (idx + 1)
    have e1 : idx + 1 + l1.length = idx + (l1.length + 1) := by omega
    rw [e1] at ih
    simp only [List.cons_append, queryEvents, List.length_cons, List.cons.injEq, true_and]
    exact ih

/-- Every statement succeeds at the history at which the loop reaches it: the loop runs
through, marks every unit and appends one event per statement. -/
theorem executeQueries_ok (srv : Server) (rc : Bool) :
    ∀ (qs : List (Query × IQueryData)) (hist : List Event) (idx : Nat),
      (∀ (k : Nat) (hk : k < qs.length),
        srv.executeQuery (hist ++ queryEvents rc idx (qs.take (k + 1))) (idx + k) (qs[k]).1
          (((qs[k]).2.setResultStatus .QUERY_NONE).setError "") = none) →
      executeQueries srv rc hist idx qs = (hist ++ queryEvents rc idx qs, qs.map markSuccess, none)
  | [], hist, idx, _ => by simp [executeQueries, queryEvents]
  | (cq, cd) :: rest, hist, idx, h => by
    have h0 := h 0 (by simp)
    simp only [List.take_succ_cons, List.take_zero, queryEvents, Nat.add_zero,
      List.getElem_cons_zero] at h0
    have ih := executeQueries_ok srv rc rest (hist ++ [⟨.executeQuery idx cq, rc⟩]) (idx + 1)
      (by
        intro k hk
        have hk1 := h (k + 1) (by simpa using hk)
        simp only [List.take_succ_cons, queryEvents, List.getElem_cons_succ] at hk1
        have e1 : idx + 1 + k = idx + (k + 1) := by omega
        rw [e1]
        simpa [List.append_assoc] using hk1)
    simp only [executeQueries, h0, ih, queryEvents, List.map_cons, markSuccess,
      List.append_assoc, List.singleton_append]

/-- The statements before position `i` succeed and the one at position `i` raises `error`,
each at the history at which the loop reaches it: the loop stops there. -/
theorem executeQueries_fail (srv : Server) (rc : Bool) (error : MySQLException) :
    ∀ (qs : List (Query × IQueryData)) (hist : List Event) (idx i : Nat) (hi : i < qs.length),
      (∀ (k : Nat) (hk : k < i),
        srv.executeQuery (hist ++ queryEvents rc idx (qs.take (k + 1))) (idx + k)
          (qs[k]).1 (((qs[k]).2.setResultStatus .QUERY_NONE).setError "") = none) →
      srv.executeQuery (hist ++ queryEvents rc idx (qs.take (i + 1))) (idx + i)
          (qs[i]).1 (((qs[i]).2.setResultStatus .QUERY_NONE).setError "") = some error →
      executeQueries srv rc hist idx qs =
        (hist ++ queryEvents rc idx (qs.take (i + 1)),
          (qs.take i).map markSuccess ++ markError error qs[i] :: qs.drop (i + 1), some error)
  | [], _, _, _, hi, _, _ => by simp at hi
  | (cq, cd) :: rest, hist, idx, 0, _, _, hf => by
    simp only [List.take_succ_cons, List.take_zero, queryEvents, Nat.add_zero,
      List.getElem_cons_zero] at hf
    simp [executeQueries, hf, queryEvents, markError]
  | (cq, cd) :: rest, hist, idx, i + 1, hi, hs, hf => by
    have h0 := hs 0 (by omega)
    simp only [List.take_succ_cons, List.take_zero, queryEvents, Nat.add_zero,
      List.getElem_cons_zero] at h0
    have hi1 : i < rest.length := by simpa using hi
    have ih := executeQueries_fail srv rc error rest (hist ++ [⟨.executeQuery idx cq, rc⟩])
      (idx + 1) i hi1
      (by
        intro k hk
        have hk1 := hs (k + 1) (by omega)
        simp only [List.take_succ_cons, queryEvents, List.getElem_cons_succ] at hk1
        have e1 : idx + 1 + k = idx + (k + 1) := by omega
        rw [e1]
        simpa [List.append_assoc] using hk1)
      (by
        simp only [List.take_succ_cons, queryEvents, List.getElem_cons_succ] at hf
        have e1 : idx + 1 + i = idx + (i + 1) := by omega
        rw [e1]
        simpa [List.append_assoc] using hf)
    simp only [executeQueries, h0, ih, queryEvents, List.take_succ_cons, List.map_cons,
      markSuccess, List.append_assoc, List.singleton_append, List.cons_append,
      List.getElem_cons_succ, List.drop_succ_cons, List.nil_append]

/-- Whatever the connection does, the loop executes a front part of the batch, in order,
keeps the number of pairs and their query objects, and leaves the pairs it did not reach
untouched. -/
theorem executeQueries_structure (srv : Server) (rc : Bool) :
    ∀ (qs : List (Query × IQueryData)) (hist : List Event) (idx : Nat),
      ∃ k, k ≤ qs.length ∧
        (executeQueries srv rc hist idx qs).1 = hist ++ queryEvents rc idx (qs.take k) ∧
        (executeQueries srv rc hist idx qs).2.1.drop k = qs.drop k ∧
        (executeQueries srv rc hist idx qs).2.1.length = qs.length ∧
        (∀ p ∈ (executeQueries srv rc hist idx qs).2.1.take k, p.2.finished = true) ∧
        ((executeQueries srv rc hist idx qs).2.2 = none → k = qs.length)
  | [], hist, idx => ⟨0, by simp [executeQueries, queryEvents]⟩
  | (cq, cd) :: rest, hist, idx => by
    cases hq : srv.executeQuery (hist ++ [⟨.executeQuery idx cq, rc⟩]) idx cq
      ((cd.setResultStatus .QUERY_NONE).setError "") with
    | none =>
      obtain ⟨k, hk, h1, h2, h3, h4, h5⟩ :=
        executeQueries_structure srv rc rest (hist ++ [⟨.executeQuery idx cq, rc⟩]) (idx + 1)
      refine ⟨k + 1, by simpa using hk, ?_, ?_, ?_, ?_, ?_⟩
      · simp [executeQueries, hq, h1, queryEvents]
      · simp [executeQueries, hq, h2]
      · simp [executeQueries, hq, h3]
      · simp only [executeQueries, hq, List.take_succ_cons, List.mem_cons]
        rintro p (rfl | hp)
        · rfl
        · exact h4 p hp
      · simp only [executeQueries, hq, List.length_cons, Nat.add_right_cancel_iff]
        exact h5
    | some error =>
      refine ⟨1, by simp, ?_, ?_, ?_, ?_, ?_⟩
      · simp [executeQueries, hq, queryEvents]
      · simp [executeQueries, hq]
      · simp [executeQueries, hq]
      · simp [executeQueries, hq, IQueryData.setFinished]
      · simp [executeQueries, hq]

/-! ## Counting calls -/

theorem count_queryEvents (rc : Bool) (c : Call) (hc : ∀ i q, c ≠ .executeQuery i q) :
    ∀ (qs : List (Query × IQueryData)) (idx : Nat),
      List.count c ((queryEvents rc idx qs).map Event.call) = 0
  | [], _ => by simp [queryEvents]
  | q :: rest, idx => by
    have h1 : (Call.executeQuery idx q.1 == c) = false := by
      simpa using fun h => hc idx q.1 h.symm
    simp [queryEvents, List.count_cons, h1, count_queryEvents rc c hc rest (idx + 1)]

theorem reconnect_queryEvents (rc : Bool) :
    ∀ (qs : List (Query × IQueryData)) (idx : Nat), ∀ e ∈ queryEvents rc idx qs, e.reconnect = rc
  | [], _ => by simp [queryEvents]
  | q :: rest, idx => by
    intro e he
    simp only [queryEvents, List.mem_cons] at he
    rcases he with rfl | he
    · rfl
    · exact reconnect_queryEvents rc rest (idx + 1) e he

theorem executed_append : ∀ (l1 l2 : List Call), executed (l1 ++ l2) = executed l1 ++ executed l2
  | [], l2 => by simp [executed]
  | c :: l1, l2 => by
    cases c <;> simp [executed, executed_append l1 l2]

theorem executed_queryEvents (rc : Bool) :
    ∀ (qs : List (Query × IQueryData)) (idx : Nat),
      executed ((queryEvents rc idx qs).map Event.call) =
        (qs.enumFrom idx).map (fun p => (p.1, p.2.1))
  | [], _ => by simp [queryEvents, executed]
  | q :: rest, idx => by
    simp [queryEvents, executed, executed_queryEvents rc rest (idx + 1)]

theorem newEvents_of_append (s r : State) (ev : List Event)
    (h : r.connection = s.connection ++ ev) : newEvents s r = ev := by
  simp [newEvents, h]

theorem newCalls_of_append (s r : State) (ev : List Event)
    (h : r.connection = s.connection ++ ev) : newCalls s r = ev.map Event.call := by
  simp [newCalls, newEvents_of_append s r ev h]

/-! ## The blocks of `executeStatement` -/

theorem putFinished_eq : ∀ (qs : List (Query × IQueryData)) (db : Database),
    putFinished db qs =
      { db with finishedQueries := db.finishedQueries ++ qs.filter (fun p => p.2.finished) }
  | [], db => by simp [putFinished]
  | q :: rest, db => by
    cases hq : q.2.finished <;>
      simp [putFinished, IQueryData.isFinished, hq, putFinished_eq rest, Database.put,
        List.filter_cons]

theorem finishBlock_eq (old : Bool) (s : State) :
    finishBlock old s =
      ({ database :=
            { m_autoReconnect := old
              finishedQueries := s.database.finishedQueries ++
                s.data.m_queries.filter (fun p => p.2.finished) }
         connection := s.connection ++ [⟨.autocommit true, s.database.m_autoReconnect⟩]
         data := { s.data with base := s.data.base.setStatus .QUERY_COMPLETE } }, true) := by
  simp [finishBlock, putFinished_eq, State.record, State.setStatus, State.setAutoReconnect,
    Database.setAutoReconnect, Database.getAutoReconnect]

/-- The `try` block when turning autocommit off, every statement and the commit succeed at
the histories at which they are reached. -/
theorem tryBlock_ok (srv : Server) (s : State)
    (ha : srv.mysqlAutocommit (s.connection ++ [⟨.autocommit false, s.database.m_autoReconnect⟩])
      false = none)
    (hq : ∀ (k : Nat) (hk : k < s.data.m_queries.length),
      srv.executeQuery
        (s.connection ++ [⟨.autocommit false, s.database.m_autoReconnect⟩] ++
          queryEvents s.database.m_autoReconnect 0 (s.data.m_queries.take (k + 1))) k
        (s.data.m_queries[k]).1
        (((s.data.m_queries[k]).2.setResultStatus .QUERY_NONE).setError "") = none)
    (hc : srv.mysql_commit
        (s.connection ++ [⟨.autocommit false, s.database.m_autoReconnect⟩] ++
          queryEvents s.database.m_autoReconnect 0 s.data.m_queries ++
          [⟨.commit, s.database.m_autoReconnect⟩]) = 0) :
    tryBlock srv s =
      ({ database := s.database
         connection := s.connection ++ [⟨.autocommit false, s.database.m_autoReconnect⟩] ++
          queryEvents s.database.m_autoReconnect 0 s.data.m_queries ++
          [⟨.commit, s.database.m_autoReconnect⟩]
         data :=
          { base := s.data.base.setResultStatus .QUERY_SUCCESS
            m_queries := s.data.m_queries.map markSuccess
            retried := s.data.retried } }, none) := by
  have hl := executeQueries_ok srv s.database.m_autoReconnect s.data.m_queries
    (s.connection ++ [⟨.autocommit false, s.database.m_autoReconnect⟩]) 0
    (by intro k hk; simpa using hq k hk)
  simp only [tryBlock, State.record, Database.getAutoReconnect, ha, hl, hc, ne_eq,
    not_true_eq_false, if_false, State.setResultStatus]

/-- The `try` block when turning autocommit off and the statements before position `i`
succeed and the statement at position `i` raises `error`. -/
theorem tryBlock_fail (srv : Server) (s : State) (i : Nat) (hi : i < s.data.m_queries.length)
    (error : MySQLException)
    (ha : srv.mysqlAutocommit (s.connection ++ [⟨.autocommit false, s.database.m_autoReconnect⟩])
      false = none)
    (hq : ∀ (k : Nat) (hk : k < i),
      srv.executeQuery
        (s.connection ++ [⟨.autocommit false, s.database.m_autoReconnect⟩] ++
          queryEvents s.database.m_autoReconnect 0 (s.data.m_queries.take (k + 1))) k
        (s.data.m_queries[k]).1
        (((s.data.m_queries[k]).2.setResultStatus .QUERY_NONE).setError "") = none)
    (hf : srv.executeQuery
        (s.connection ++ [⟨.autocommit false, s.database.m_autoReconnect⟩] ++
          queryEvents s.database.m_autoReconnect 0 (s.data.m_queries.take (i + 1))) i
        (s.data.m_queries[i]).1
        (((s.data.m_queries[i]).2.setResultStatus .QUERY_NONE).setError "") = some error) :
    tryBlock srv s =
      ({ database := s.database
         connection := s.connection ++ [⟨.autocommit false, s.database.m_autoReconnect⟩] ++
          queryEvents s.database.m_autoReconnect 0 (s.data.m_queries.take (i + 1))
         data :=
          { base := s.data.base
            m_queries := (s.data.m_queries.take i).map markSuccess ++
              markError error s.data.m_queries[i] :: s.data.m_queries.drop (i + 1)
            retried := s.data.retried } }, some error) := by
  have hl := executeQueries_fail srv s.database.m_autoReconnect error s.data.m_queries
    (s.connection ++ [⟨.autocommit false, s.database.m_autoReconnect⟩]) 0 i hi
    (by intro k hk; simpa using hq k hk) (by simpa using hf)
  simp only [tryBlock, State.record, Database.getAutoReconnect, ha, hl]

theorem filter_markSuccess (qs : List (Query × IQueryData)) :
    (qs.map markSuccess).filter (fun p => p.2.finished) = qs.map markSuccess := by
  rw [List.filter_eq_self]
  intro p hp
  obtain ⟨q, _, rfl⟩ := List.mem_map.mp hp
  rfl

/-! ## Complete outcome of a call on the paths without a retry -/

/-- The call when turning autocommit off, every statement and the commit succeed at the
histories at which they are reached. -/
theorem executeStatement_ok (srv : Server) (s : State)
    (ha : srv.mysqlAutocommit (s.connection ++ [⟨.autocommit false, false⟩]) false = none)
    (hq : ∀ (k : Nat) (hk : k < s.data.m_queries.length),
      srv.executeQuery
        (s.connection ++ [⟨.autocommit false, false⟩] ++
          queryEvents false 0 (s.data.m_queries.take (k + 1))) k
        (s.data.m_queries[k]).1
        (((s.data.m_queries[k]).2.setResultStatus .QUERY_NONE).setError "") = none)
    (hc : srv.mysql_commit
        (s.connection ++ [⟨.autocommit false, false⟩] ++
          queryEvents false 0 s.data.m_queries ++ [⟨.commit, false⟩]) = 0) :
    executeStatement srv s =
      ({ database :=
          { m_autoReconnect := s.database.m_autoReconnect
            finishedQueries := s.database.finishedQueries ++ s.data.m_queries.map markSuccess }
         connection := s.connection ++ ([⟨.autocommit false, false⟩] ++
          queryEvents false 0 s.data.m_queries ++ [⟨.commit, false⟩, ⟨.autocommit true, false⟩])
         data :=
          { base := ((s.data.base.setStatus .QUERY_RUNNING).setResultStatus
              .QUERY_SUCCESS).setStatus .QUERY_COMPLETE
            m_queries := s.data.m_queries.map markSuccess
            retried := s.data.retried } }, true) := by
  have ht := tryBlock_ok srv (entryState s) ha hq hc
  rw [executeStatement_eq, ht]
  simp [finishBlock_eq, filter_markSuccess, entryState, State.setStatus,
    State.setAutoReconnect, Database.setAutoReconnect]

/-- C1: for every batch on which turning autocommit off, every statement's executeQuery
and mysql_commit succeed, executeStatement keeps the pairs' query objects, leaves every
unit with result status SUCCESS, an empty error and finished=true, sets the batch result
status to SUCCESS, calls commit exactly once and never calls rollback or ping. -/
theorem executeStatement_all_succeed (srv : Server) (s : State)
    (hauto : ∀ hist, srv.mysqlAutocommit hist false = none)
    (hexec : ∀ hist (k : Nat) (hk : k < s.data.m_queries.length) d,
      srv.executeQuery hist k (s.data.m_queries[k]).1 d = none)
    (hcommit : ∀ hist, srv.mysql_commit hist = 0) :
    (executeStatement srv s).1.data.m_queries.map Prod.fst = s.data.m_queries.map Prod.fst ∧
    (∀ p ∈ (executeStatement srv s).1.data.m_queries,
      p.2.m_resultStatus = .QUERY_SUCCESS ∧ p.2.m_errorText = "" ∧ p.2.finished = true) ∧
    (executeStatement srv s).1.data.base.m_resultStatus = .QUERY_SUCCESS ∧
    (newCalls s (executeStatement srv s).1).count .commit = 1 ∧
    (newCalls s (executeStatement srv s).1).count .rollback = 0 ∧
    (newCalls s (executeStatement srv s).1).count .ping = 0 := by
  have h := executeStatement_ok srv s (hauto _) (fun k hk => hexec _ k hk _) (hcommit _)
  have hn := newCalls_of_append s (executeStatement srv s).1 _ (by rw [h])
  rw [hn]
  rw [h]
  refine ⟨?_, ?_, rfl, ?_, ?_, ?_⟩
  · simp [markSuccess, Function.comp_def]
  · intro p hp
    obtain ⟨q, _, rfl⟩ := List.mem_map.mp hp
    exact ⟨rfl, rfl, rfl⟩
  · simp [List.count_cons, count_queryEvents]
  · simp [List.count_cons, count_queryEvents]
  · simp [List.count_cons, count_queryEvents]

theorem executeStatement_all_succeed_witness :
    (executeStatement healthyServer (freshState true [7, 8])).1.data.m_queries.map Prod.fst =
      (freshState true [7, 8]).data.m_queries.map Prod.fst ∧
    (∀ p ∈ (executeStatement healthyServer (freshState true [7, 8])).1.data.m_queries,
      p.2.m_resultStatus = .QUERY_SUCCESS ∧ p.2.m_errorText = "" ∧ p.2.finished = true) ∧
    (executeStatement healthyServer (freshState true [7, 8])).1.data.base.m_resultStatus =
      .QUERY_SUCCESS ∧
    (newCalls (freshState true [7, 8])
      (executeStatement healthyServer (freshState true [7, 8])).1).count .commit = 1 ∧
    (newCalls (freshState true [7, 8])
      (executeStatement healthyServer (freshState true [7, 8])).1).count .rollback = 0 ∧
    (newCalls (freshState true [7, 8])
      (executeStatement healthyServer (freshState true [7, 8])).1).count .ping = 0 :=
  executeStatement_all_succeed healthyServer (freshState true [7, 8])
    (fun _ => rfl) (fun _ _ _ _ => rfl) (fun _ => rfl)

theorem timesExecuted_append (j : Nat) (l1 l2 : List Call) :
    timesExecuted j (l1 ++ l2) = timesExecuted j l1 + timesExecuted j l2 := by
  simp [timesExecuted, executed_append]

theorem timesExecuted_queryEvents (rc : Bool) (j : Nat) :
    ∀ (qs : List (Query × IQueryData)) (idx : Nat),
      timesExecuted j ((queryEvents rc idx qs).map Event.call) =
        if idx ≤ j ∧ j < idx + qs.length then 1 else 0
  | [], idx => by
    have : ¬ (idx ≤ j ∧ j < idx) := by omega
    simp [queryEvents, timesExecuted, executed, this]
  | q :: rest, idx => by
    have ih := timesExecuted_queryEvents rc j rest (idx + 1)
    simp only [timesExecuted] at ih
    simp only [queryEvents, List.map_cons, timesExecuted, executed, List.filter_cons,
      List.length_cons]
    by_cases h : idx = j
    · subst h
      have h2 : ¬ (idx + 1 ≤ idx ∧ idx < idx + 1 + rest.length) := by omega
      rw [if_neg h2] at ih
      simp [ih]
    · have h1 : (idx == j) = false := by simpa using h
      simp only [h1, Bool.false_eq_true, if_false, ih]
      by_cases h3 : idx + 1 ≤ j ∧ j < idx + 1 + rest.length
      · rw [if_pos h3, if_pos (by omega)]
      · rw [if_neg h3, if_neg (by omega)]

/-- The call when turning autocommit off and the statements before position `i` succeed,
the statement at position `i` raises `error`, and the test of lines 113-114 fails. -/
theorem executeStatement_fail (srv : Server) (s : State) (i : Nat)
    (hi : i < s.data.m_queries.length) (error : MySQLException)
    (ha : srv.mysqlAutocommit (s.connection ++ [⟨.autocommit false, false⟩]) false = none)
    (hq : ∀ (k : Nat) (hk : k < i),
      srv.executeQuery
        (s.connection ++ [⟨.autocommit false, false⟩] ++
          queryEvents false 0 (s.data.m_queries.take (k + 1))) k
        (s.data.m_queries[k]).1
        (((s.data.m_queries[k]).2.setResultStatus .QUERY_NONE).setError "") = none)
    (hf : srv.executeQuery
        (s.connection ++ [⟨.autocommit false, false⟩] ++
          queryEvents false 0 (s.data.m_queries.take (i + 1))) i
        (s.data.m_queries[i]).1
        (((s.data.m_queries[i]).2.setResultStatus .QUERY_NONE).setError "") = some error)
    (hno : shouldReconnect s.database.m_autoReconnect s.data.retried error.errorCode = false) :
    executeStatement srv s =
      ({ database :=
          { m_autoReconnect := s.database.m_autoReconnect
            finishedQueries := s.database.finishedQueries ++
              ((s.data.m_queries.take i).map markSuccess ++
                markError error s.data.m_queries[i] ::
                  (s.data.m_queries.drop (i + 1)).filter (fun p => p.2.finished)) }
         connection := s.connection ++ ([⟨.autocommit false, false⟩] ++
          queryEvents false 0 (s.data.m_queries.take (i + 1)) ++
            [⟨.rollback, false⟩, ⟨.autocommit true, false⟩])
         data :=
          { base := (((s.data.base.setStatus .QUERY_RUNNING).setResultStatus
              .QUERY_ERROR).setError error.what).setStatus .QUERY_COMPLETE
            m_queries := (s.data.m_queries.take i).map markSuccess ++
              markError error s.data.m_queries[i] :: s.data.m_queries.drop (i + 1)
            retried := s.data.retried } }, true) := by
  have ht := tryBlock_fail srv (entryState s) i hi error ha hq hf
  have hfil : List.filter (fun p => p.2.finished)
      ((s.data.m_queries.take i).map markSuccess ++
        markError error s.data.m_queries[i] :: s.data.m_queries.drop (i + 1)) =
      (s.data.m_queries.take i).map markSuccess ++
        markError error s.data.m_queries[i] ::
          (s.data.m_queries.drop (i + 1)).filter (fun p => p.2.finished) := by
    rw [List.filter_append, filter_markSuccess, List.filter_cons]
    rfl
  rw [executeStatement_eq, ht]
  simp only [hno, Bool.false_eq_true, if_false, finishBlock_eq, entryState, State.setStatus,
    State.setAutoReconnect, Database.setAutoReconnect, State.setResultStatus, State.setError,
    State.record, Database.getAutoReconnect, hfil, List.append_assoc, List.singleton_append,
    List.cons_append, List.nil_append]

theorem shouldReconnect_eq_false (old retried : Bool) (errorCode : Int)
    (h : isConnectionLost errorCode = false ∨ old = false ∨ retried = true) :
    shouldReconnect old retried errorCode = false := by
  unfold shouldReconnect
  unfold isConnectionLost at h
  rcases h with h | h | h
  · rw [h]; simp
  · rw [h]; simp
  · rw [h]; simp

/-- C2: for every batch and every position i such that (turning autocommit off and) the
statements before i succeed and statement i raises an error that is not retried (its code
is not a connection-lost code, or auto-reconnect was disabled at entry, or the batch was
already retried), executeStatement executes exactly the statements at positions 0..i, once
each and in batch order, leaves the units before i with result status SUCCESS and
finished=true, leaves unit i with result status ERROR, the error's message and
finished=true, never calls commit and calls rollback exactly once. -/
theorem executeStatement_statement_fails (srv : Server) (s : State) (i : Nat)
    (hi : i < s.data.m_queries.length) (error : MySQLException)
    (hauto : ∀ hist, srv.mysqlAutocommit hist false = none)
    (hok : ∀ hist (k : Nat) (hk : k < i) d,
      srv.executeQuery hist k (s.data.m_queries[k]).1 d = none)
    (hfail : ∀ hist d, srv.executeQuery hist i (s.data.m_queries[i]).1 d = some error)
    (hno : isConnectionLost error.errorCode = false ∨ s.database.m_autoReconnect = false ∨
      s.data.retried = true) :
    executed (newCalls s (executeStatement srv s).1) =
      ((s.data.m_queries.take (i + 1)).enumFrom 0).map (fun p => (p.1, p.2.1)) ∧
    (∀ j, timesExecuted j (newCalls s (executeStatement srv s).1) = if j ≤ i then 1 else 0) ∧
    (executeStatement srv s).1.data.m_queries.map Prod.fst = s.data.m_queries.map Prod.fst ∧
    (∀ p ∈ (executeStatement srv s).1.data.m_queries.take i,
      p.2.m_resultStatus = .QUERY_SUCCESS ∧ p.2.finished = true) ∧
    (∃ p, (executeStatement srv s).1.data.m_queries[i]? = some p ∧
      p.2.m_resultStatus = .QUERY_ERROR ∧ p.2.m_errorText = error.what ∧
      p.2.finished = true) ∧
    (newCalls s (executeStatement srv s).1).count .commit = 0 ∧
    (newCalls s (executeStatement srv s).1).count .rollback = 1 := by
  have h := executeStatement_fail srv s i hi error (hauto _)
    (fun k hk => hok _ k hk _) (hfail _ _)
    (shouldReconnect_eq_false _ _ _ hno)
  have hn := newCalls_of_append s (executeStatement srv s).1 _ (by rw [h])
  rw [hn]
  rw [h]
  dsimp only
  have hlen : ((List.take i s.data.m_queries).map markSuccess).length = i := by
    rw [List.length_map, List.length_take]; omega
  refine ⟨?_, ?_, ?_, ?_, ?_, ?_, ?_⟩
  · simp [executed_append, executed_queryEvents, executed]
  · intro j
    simp only [List.map_append, timesExecuted_append, timesExecuted_queryEvents,
      List.length_take]
    have hm : min (i + 1) s.data.m_queries.length = i + 1 := by omega
    rw [hm]
    by_cases hj : j ≤ i
    · rw [if_pos hj, if_pos (by omega)]
      simp [timesExecuted, executed]
    · rw [if_neg hj, if_neg (by omega)]
      simp [timesExecuted, executed]
  · simp only [List.map_append, List.map_map, List.map_cons]
    have e1 : (Prod.fst ∘ markSuccess) = (Prod.fst : Query × IQueryData → Query) := by
      funext p; rfl
    rw [e1]
    conv_rhs => rw [← List.take_append_drop i s.data.m_queries]
    rw [List.map_append, List.drop_eq_getElem_cons hi]
    rfl
  · intro p hp
    rw [List.take_append_of_le_length (by rw [hlen])] at hp
    have hp2 := List.mem_of_mem_take hp
    obtain ⟨q, _, rfl⟩ := List.mem_map.mp hp2
    exact ⟨rfl, rfl⟩
  · refine ⟨markError error s.data.m_queries[i], ?_, rfl, rfl, rfl⟩
    rw [List.getElem?_append_right (by rw [hlen]), hlen]
    simp
  · simp [List.count_cons, count_queryEvents]
  · simp [List.count_cons, count_queryEvents]

theorem executeStatement_statement_fails_witness :
    executed (newCalls (freshState true [7, 8])
        (executeStatement (failingServer 1 ⟨1064, "syntax error"⟩)
          (freshState true [7, 8])).1) =
      (((freshState true [7, 8]).data.m_queries.take (1 + 1)).enumFrom 0).map
        (fun p => (p.1, p.2.1)) ∧
    (∀ j, timesExecuted j (newCalls (freshState true [7, 8])
        (executeStatement (failingServer 1 ⟨1064, "syntax error"⟩)
          (freshState true [7, 8])).1) = if j ≤ 1 then 1 else 0) ∧
    (executeStatement (failingServer 1 ⟨1064, "syntax error"⟩)
        (freshState true [7, 8])).1.data.m_queries.map Prod.fst =
      (freshState true [7, 8]).data.m_queries.map Prod.fst ∧
    (∀ p ∈ (executeStatement (failingServer 1 ⟨1064, "syntax error"⟩)
        (freshState true [7, 8])).1.data.m_queries.take 1,
      p.2.m_resultStatus = .QUERY_SUCCESS ∧ p.2.finished = true) ∧
    (∃ p, (executeStatement (failingServer 1 ⟨1064, "syntax error"⟩)
        (freshState true [7, 8])).1.data.m_queries[1]? = some p ∧
      p.2.m_resultStatus = .QUERY_ERROR ∧ p.2.m_errorText = "syntax error" ∧
      p.2.finished = true) ∧
    (newCalls (freshState true [7, 8])
        (executeStatement (failingServer 1 ⟨1064, "syntax error"⟩)
          (freshState true [7, 8])).1).count .commit = 0 ∧
    (newCalls (freshState true [7, 8])
        (executeStatement (failingServer 1 ⟨1064, "syntax error"⟩)
          (freshState true [7, 8])).1).count .rollback = 1 :=
  executeStatement_statement_fails (failingServer 1 ⟨1064, "syntax error"⟩)
    (freshState true [7, 8]) 1 (by decide) ⟨1064, "syntax error"⟩
    (fun _ => rfl)
    (fun _ k hk _ => by
      have hk0 : k ≠ 1 := by omega
      simp [failingServer, hk0])
    (fun _ _ => rfl)
    (Or.inl (by decide))

/-! ## Case analysis and induction over the paths of a call -/

/-- The four ways through `executeStatement`: the `try` block succeeds (`hA`), it fails
and the test of lines 113-114 fails (`hB`), the ping fails (`hC`), or the ping succeeds
and the function calls itself (`hD`). -/
theorem executeStatement_induction (srv : Server) (P : State → State × Bool → Prop)
    (hA : ∀ s, (tryBlock srv (entryState s)).2 = none →
      P s (finishBlock s.database.m_autoReconnect (tryBlock srv (entryState s)).1))
    (hB : ∀ s error, (tryBlock srv (entryState s)).2 = some error →
      shouldReconnect s.database.m_autoReconnect s.data.retried error.errorCode = false →
      P s (finishBlock s.database.m_autoReconnect ((caughtState srv s error).record .rollback)))
    (hC : ∀ s error, (tryBlock srv (entryState s)).2 = some error →
      shouldReconnect s.database.m_autoReconnect s.data.retried error.errorCode = true →
      srv.mysql_ping (pingState srv s error).connection ≠ 0 →
      P s (finishBlock s.database.m_autoReconnect ((pingState srv s error).record .rollback)))
    (hD : ∀ s error, (tryBlock srv (entryState s)).2 = some error →
      shouldReconnect s.database.m_autoReconnect s.data.retried error.errorCode = true →
      srv.mysql_ping (pingState srv s error).connection = 0 →
      P (prepareRetry (pingState srv s error))
        (executeStatement srv (prepareRetry (pingState srv s error))) →
      P s ((executeStatement srv (prepareRetry (pingState srv s error))).1.setAutoReconnect
        s.database.m_autoReconnect,
        (executeStatement srv (prepareRetry (pingState srv s error))).2)) :
    ∀ s, P s (executeStatement srv s) := by
  have hret : ∀ s, s.data.retried = true → P s (executeStatement srv s) := by
    intro s hr
    rw [executeStatement_eq]
    cases hT : (tryBlock srv (entryState s)).2 with
    | none => exact hA s hT
    | some error =>
      have hs : shouldReconnect s.database.m_autoReconnect s.data.retried error.errorCode
          = false := by simp [shouldReconnect, hr]
      simp only [hs, Bool.false_eq_true, if_false]
      exact hB s error hT hs
  intro s
  rw [executeStatement_eq]
  cases hT : (tryBlock srv (entryState s)).2 with
  | none => exact hA s hT
  | some error =>
    cases hs : shouldReconnect s.database.m_autoReconnect s.data.retried error.errorCode with
    | false =>
      simp only [hs, Bool.false_eq_true, if_false]
      exact hB s error hT hs
    | true =>
      simp only [hs, if_true]
      by_cases hp : srv.mysql_ping (pingState srv s error).connection = 0
      · have hp2 := hp
        simp only [pingState, caughtState] at hp2
        rw [if_pos hp2]
        exact hD s error hT hs hp (hret _ rfl)
      · have hp2 := hp
        simp only [pingState, caughtState] at hp2
        rw [if_neg hp2]
        exact hC s error hT hs hp

/-- Whatever the connection does, the `try` block turns autocommit off, executes a front
part of the batch in order and possibly commits; it leaves the database object alone. -/
theorem tryBlock_structure (srv : Server) (s : State) :
    ∃ (k : Nat) (c : Bool), k ≤ s.data.m_queries.length ∧
      (tryBlock srv s).1.connection = s.connection ++
        (⟨.autocommit false, s.database.m_autoReconnect⟩ ::
          queryEvents s.database.m_autoReconnect 0 (s.data.m_queries.take k) ++
          (if c then [⟨.commit, s.database.m_autoReconnect⟩] else [])) ∧
      (tryBlock srv s).1.database = s.database ∧
      (tryBlock srv s).1.data.m_queries.drop k = s.data.m_queries.drop k ∧
      (tryBlock srv s).1.data.m_queries.length = s.data.m_queries.length ∧
      (∀ p ∈ (tryBlock srv s).1.data.m_queries.take k, p.2.finished = true) ∧
      ((tryBlock srv s).2 = none →
        (tryBlock srv s).1.data.base.m_resultStatus = .QUERY_SUCCESS) := by
  cases ha : srv.mysqlAutocommit
      (s.connection ++ [⟨.autocommit false, s.database.m_autoReconnect⟩]) false with
  | some error =>
    refine ⟨0, false, Nat.zero_le _, ?_⟩
    simp [tryBlock, State.record, Database.getAutoReconnect, ha, queryEvents]
  | none =>
    obtain ⟨k, hk, h1, h2, h3, h4, h5⟩ := executeQueries_structure srv s.database.m_autoReconnect
      s.data.m_queries (s.connection ++ [⟨.autocommit false, s.database.m_autoReconnect⟩]) 0
    cases hq : (executeQueries srv s.database.m_autoReconnect
      (s.connection ++ [⟨.autocommit false, s.database.m_autoReconnect⟩]) 0
      s.data.m_queries).2.2 with
    | some error =>
      refine ⟨k, false, hk, ?_⟩
      simp only [tryBlock, State.record, Database.getAutoReconnect, ha, hq]
      simp [h1, h2, h3]
      exact fun a b hab => h4 (a, b) hab
    | none =>
      have hkn := h5 hq
      by_cases hc : srv.mysql_commit
          ((executeQueries srv s.database.m_autoReconnect
            (s.connection ++ [⟨.autocommit false, s.database.m_autoReconnect⟩]) 0
            s.data.m_queries).1 ++ [⟨.commit, s.database.m_autoReconnect⟩]) = 0
      · refine ⟨k, true, hk, ?_⟩
        simp only [tryBlock, State.record, Database.getAutoReconnect, ha, hq, hc, ne_eq,
          not_true_eq_false, if_false, State.setResultStatus]
        simp [h1, h2, h3, IQueryData.setResultStatus]
        exact fun a b hab => h4 (a, b) hab
      · refine ⟨k, true, hk, ?_⟩
        simp only [tryBlock, State.record, Database.getAutoReconnect, ha, hq, hc, ne_eq,
          not_false_eq_true, if_true]
        simp [h1, h2, h3]
        exact fun a b hab => h4 (a, b) hab

/-- The calls of one `try` block: autocommit is turned off once, every statement is executed
at most once, there is at most one commit and there is no ping, no rollback and no turning
autocommit on; every call sees the auto-reconnect flag with which the block was entered. -/
theorem tryBlock_calls (srv : Server) (s : State) :
    ∃ ev : List Event, (tryBlock srv s).1.connection = s.connection ++ ev ∧
      (∀ e ∈ ev, e.reconnect = s.database.m_autoReconnect) ∧
      (ev.map Event.call).count (.autocommit false) = 1 ∧
      (ev.map Event.call).count .ping = 0 ∧
      (ev.map Event.call).count .rollback = 0 ∧
      (ev.map Event.call).count (.autocommit true) = 0 ∧
      (ev.map Event.call).count .commit ≤ 1 ∧
      (∀ j, timesExecuted j (ev.map Event.call) ≤ 1) := by
  obtain ⟨k, c, _, h1, _⟩ := tryBlock_structure srv s
  refine ⟨_, h1, ?_, ?_, ?_, ?_, ?_, ?_, ?_⟩
  · intro e he
    simp only [List.cons_append, List.mem_cons, List.mem_append] at he
    rcases he with rfl | he | he
    · rfl
    · exact reconnect_queryEvents _ _ _ e he
    · cases c <;> simp at he
      subst he; rfl
  · cases c <;> simp [List.count_cons, count_queryEvents]
  · cases c <;> simp [List.count_cons, count_queryEvents]
  · cases c <;> simp [List.count_cons, count_queryEvents]
  · cases c <;> simp [List.count_cons, count_queryEvents]
  · cases c <;> simp [List.count_cons, count_queryEvents]
  · intro j
    have h2 : ∀ l, timesExecuted j (Call.autocommit false :: l) = timesExecuted j l := by
      intro l; simp [timesExecuted, executed]
    have h3 : ∀ b : Bool, timesExecuted j
        (List.map Event.call (if b = true then [⟨Call.commit, s.database.m_autoReconnect⟩]
          else [])) = 0 := by
      intro b; cases b <;> simp [timesExecuted, executed]
    simp only [List.cons_append, List.map_cons, List.map_append, h2, timesExecuted_append,
      timesExecuted_queryEvents, h3]
    split <;> omega

theorem newlyFinished_of_append (s r : State) (l : List (Query × IQueryData))
    (h : r.database.finishedQueries = s.database.finishedQueries ++ l) :
    newlyFinished s r = l := by
  simp [newlyFinished, h]

/-! ## Units after the failing statement -/

/-- C3 (counterexample): on a fresh batch of two statements whose first statement raises a
syntax error, the second unit ends with result status NONE, an empty error and
finished=false, and only the first pair is put on the completion queue. -/
theorem executeStatement_later_units_counterexample :
    (executeStatement (failingServer 0 ⟨1064, "syntax error"⟩)
        (freshState true [7, 8])).1.data.m_queries.map
          (fun p => (p.2.m_resultStatus, p.2.m_errorText, p.2.finished)) =
      [(.QUERY_ERROR, "syntax error", true), (.QUERY_NONE, "", false)] ∧
    (executeStatement (failingServer 0 ⟨1064, "syntax error"⟩)
        (freshState true [7, 8])).1.database.finishedQueries =
      [(7, { freshUnit with m_resultStatus := .QUERY_ERROR, m_errorText := "syntax error",
                            finished := true })] := by
  rw [executeStatement_eq]
  decide

/-- C3 (amended): for every batch in which (turning autocommit off and) the statements
before position i succeed and statement i raises an error that is not retried, every unit
after position i is exactly as it was when the call was entered, and the pairs put on the
completion queue are the pairs 0..i followed by those later pairs whose finished flag was
already true at entry; when no later unit was finished at entry only the pairs 0..i are
put on the queue. -/
theorem executeStatement_later_units_untouched (srv : Server) (s : State) (i : Nat)
    (hi : i < s.data.m_queries.length) (error : MySQLException)
    (hauto : ∀ hist, srv.mysqlAutocommit hist false = none)
    (hok : ∀ hist (k : Nat) (hk : k < i) d,
      srv.executeQuery hist k (s.data.m_queries[k]).1 d = none)
    (hfail : ∀ hist d, srv.executeQuery hist i (s.data.m_queries[i]).1 d = some error)
    (hno : isConnectionLost error.errorCode = false ∨ s.database.m_autoReconnect = false ∨
      s.data.retried = true) :
    (executeStatement srv s).1.data.m_queries.drop (i + 1) = s.data.m_queries.drop (i + 1) ∧
    newlyFinished s (executeStatement srv s).1 =
      (executeStatement srv s).1.data.m_queries.take (i + 1) ++
        (s.data.m_queries.drop (i + 1)).filter (fun p => p.2.finished) ∧
    ((∀ p ∈ s.data.m_queries.drop (i + 1), p.2.finished = false) →
      newlyFinished s (executeStatement srv s).1 =
        (executeStatement srv s).1.data.m_queries.take (i + 1)) := by
  have h := executeStatement_fail srv s i hi error (hauto _)
    (fun k hk => hok _ k hk _) (hfail _ _)
    (shouldReconnect_eq_false _ _ _ hno)
  have hq := newlyFinished_of_append s (executeStatement srv s).1 _ (by rw [h])
  rw [hq]
  rw [h]
  dsimp only
  have hlen : ((List.take i s.data.m_queries).map markSuccess).length = i := by
    rw [List.length_map, List.length_take]; omega
  have hdrop : List.drop (i + 1) ((s.data.m_queries.take i).map markSuccess ++
      markError error s.data.m_queries[i] :: s.data.m_queries.drop (i + 1)) =
      s.data.m_queries.drop (i + 1) := by
    rw [List.drop_append_eq_append_drop, hlen]
    simp [List.drop_eq_nil_of_le, hlen]
  have htake : List.take (i + 1) ((s.data.m_queries.take i).map markSuccess ++
      markError error s.data.m_queries[i] :: s.data.m_queries.drop (i + 1)) =
      (s.data.m_queries.take i).map markSuccess ++ [markError error s.data.m_queries[i]] := by
    rw [List.take_append_eq_append_take, hlen]
    simp [List.take_of_length_le, hlen]
  refine ⟨hdrop, ?_, ?_⟩
  · rw [htake]; simp
  · intro hfin
    rw [htake, List.filter_eq_nil_iff.mpr (by simpa using hfin)]

theorem executeStatement_later_units_untouched_witness :
    (executeStatement (failingServer 0 ⟨1064, "syntax error"⟩)
        (freshState true [7, 8])).1.data.m_queries.drop (0 + 1) =
      (freshState true [7, 8]).data.m_queries.drop (0 + 1) ∧
    newlyFinished (freshState true [7, 8])
        (executeStatement (failingServer 0 ⟨1064, "syntax error"⟩)
          (freshState true [7, 8])).1 =
      (executeStatement (failingServer 0 ⟨1064, "syntax error"⟩)
          (freshState true [7, 8])).1.data.m_queries.take (0 + 1) ++
        ((freshState true [7, 8]).data.m_queries.drop (0 + 1)).filter
          (fun p => p.2.finished) ∧
    ((∀ p ∈ (freshState true [7, 8]).data.m_queries.drop (0 + 1), p.2.finished = false) →
      newlyFinished (freshState true [7, 8])
          (executeStatement (failingServer 0 ⟨1064, "syntax error"⟩)
            (freshState true [7, 8])).1 =
        (executeStatement (failingServer 0 ⟨1064, "syntax error"⟩)
          (freshState true [7, 8])).1.data.m_queries.take (0 + 1)) :=
  executeStatement_later_units_untouched (failingServer 0 ⟨1064, "syntax error"⟩)
    (freshState true [7, 8]) 0 (by decide) ⟨1064, "syntax error"⟩
    (fun _ => rfl)
    (fun _ k hk _ => absurd hk (Nat.not_lt_zero k))
    (fun _ _ => rfl)
    (Or.inl (by decide))

/-! ## The auto-reconnect flag -/

/-- C4: for every batch, every initial value of the auto-reconnect flag and every
connection behaviour, the flag after executeStatement returns equals its value before the
call. -/
theorem executeStatement_restores_autoReconnect (srv : Server) (s : State) :
    (executeStatement srv s).1.database.m_autoReconnect = s.database.m_autoReconnect := by
  refine executeStatement_induction srv
    (fun s r => r.1.database.m_autoReconnect = s.database.m_autoReconnect) ?_ ?_ ?_ ?_ s
  · intro s _
    rw [finishBlock_eq]
  · intro s error _ _
    rw [finishBlock_eq]
  · intro s error _ _ _
    rw [finishBlock_eq]
  · intro s error _ _ _ _
    rfl

/-- The history after each path of a call, relative to the history after its `try` block. -/
theorem finishBlock_connection (old : Bool) (s : State) :
    (finishBlock old s).1.connection =
      s.connection ++ [⟨.autocommit true, s.database.m_autoReconnect⟩] := by
  rw [finishBlock_eq]

theorem caughtState_record_connection (srv : Server) (s : State) (error : MySQLException)
    (c : Call) :
    ((caughtState srv s error).record c).connection =
      (tryBlock srv (entryState s)).1.connection ++
        [⟨c, (tryBlock srv (entryState s)).1.database.m_autoReconnect⟩] := rfl

theorem pingState_connection (srv : Server) (s : State) (error : MySQLException) :
    (pingState srv s error).connection =
      (tryBlock srv (entryState s)).1.connection ++ [⟨.ping, true⟩] := rfl

theorem pingState_record_connection (srv : Server) (s : State) (error : MySQLException)
    (c : Call) :
    ((pingState srv s error).record c).connection =
      (tryBlock srv (entryState s)).1.connection ++ [⟨.ping, true⟩, ⟨c, true⟩] := by
  simp [pingState, caughtState, State.record, State.setAutoReconnect, State.setError,
    State.setResultStatus, Database.setAutoReconnect, Database.getAutoReconnect]

theorem pingState_record_flag (srv : Server) (s : State) (error : MySQLException) (c : Call) :
    ((pingState srv s error).record c).database.m_autoReconnect = true := rfl

theorem tryBlock_database (srv : Server) (s : State) :
    (tryBlock srv s).1.database = s.database := by
  obtain ⟨_, _, _, _, h, _⟩ := tryBlock_structure srv s
  exact h

theorem executeStatement_events_flag (srv : Server) (s : State) :
    ∃ ev : List Event, (executeStatement srv s).1.connection = s.connection ++ ev ∧
      ∀ e ∈ ev, isStatementOrCommit e.call = true → e.reconnect = false := by
  refine executeStatement_induction srv
    (fun s r => ∃ ev : List Event, r.1.connection = s.connection ++ ev ∧
      ∀ e ∈ ev, isStatementOrCommit e.call = true → e.reconnect = false) ?_ ?_ ?_ ?_ s
  · intro s _
    obtain ⟨ev, hc, hf, _⟩ := tryBlock_calls srv (entryState s)
    refine ⟨ev ++ [⟨.autocommit true, false⟩], ?_, ?_⟩
    · rw [finishBlock_connection, hc, tryBlock_database]
      simp [entryState, State.setAutoReconnect, Database.setAutoReconnect, State.setStatus]
    · intro e he hg
      rcases List.mem_append.mp he with he | he
      · exact hf e he
      · simp at he; subst he; rfl
  · intro s error _ _
    obtain ⟨ev, hc, hf, _⟩ := tryBlock_calls srv (entryState s)
    refine ⟨ev ++ [⟨.rollback, false⟩, ⟨.autocommit true, false⟩], ?_, ?_⟩
    · rw [finishBlock_connection, caughtState_record_connection, hc]
      simp [State.record, caughtState, State.setError, State.setResultStatus, tryBlock_database,
        entryState, State.setAutoReconnect, Database.setAutoReconnect, State.setStatus]
    · intro e he hg
      rcases List.mem_append.mp he with he | he
      · exact hf e he
      · simp at he
        rcases he with rfl | rfl <;> simp [isStatementOrCommit] at hg
  · intro s error _ _ _
    obtain ⟨ev, hc, hf, _⟩ := tryBlock_calls srv (entryState s)
    refine ⟨ev ++ [⟨.ping, true⟩, ⟨.rollback, true⟩, ⟨.autocommit true, true⟩], ?_, ?_⟩
    · rw [finishBlock_connection, pingState_record_connection, pingState_record_flag, hc]
      simp [entryState, State.setAutoReconnect, State.setStatus]
    · intro e he hg
      rcases List.mem_append.mp he with he | he
      · exact hf e he
      · simp at he
        rcases he with rfl | rfl | rfl <;> simp [isStatementOrCommit] at hg
  · intro s error _ _ _ ih
    obtain ⟨ev, hc, hf, _⟩ := tryBlock_calls srv (entryState s)
    obtain ⟨ev2, hc2, hf2⟩ := ih
    refine ⟨ev ++ [⟨.ping, true⟩] ++ ev2, ?_, ?_⟩
    · show (executeStatement srv (prepareRetry (pingState srv s error))).1.connection = _
      rw [hc2]
      show (pingState srv s error).connection ++ ev2 = _
      rw [pingState_connection, hc]
      simp [entryState, State.setAutoReconnect, State.setStatus]
    · intro e he hg
      rcases List.mem_append.mp he with he | he
      · rcases List.mem_append.mp he with he | he
        · exact hf e he
        · simp at he; subst he; simp [isStatementOrCommit] at hg
      · exact hf2 e he hg

/-- C5: whatever the auto-reconnect flag was before the call and whatever the connection
does, every execution of a statement of the batch and every mysql_commit made by one call
of executeStatement, in the first attempt and in the retry alike, happens while the
database's auto-reconnect flag is false. -/
theorem executeStatement_reconnect_off_in_transaction (srv : Server) (s : State) :
    ∀ e ∈ newEvents s (executeStatement srv s).1,
      isStatementOrCommit e.call = true → e.reconnect = false := by
  obtain ⟨ev, hc, hf⟩ := executeStatement_events_flag srv s
  intro e he
  rw [newEvents_of_append s _ ev hc] at he
  exact hf e he

theorem executeStatement_reconnect_off_in_transaction_witness :
    (⟨.commit, false⟩ : Event) ∈ newEvents (freshState true [7, 8])
        (executeStatement healthyServer (freshState true [7, 8])).1 ∧
      isStatementOrCommit (⟨.commit, false⟩ : Event).call = true ∧
      (⟨.commit, false⟩ : Event).reconnect = false :=
  have hmem : (⟨.commit, false⟩ : Event) ∈ newEvents (freshState true [7, 8])
      (executeStatement healthyServer (freshState true [7, 8])).1 := by
    rw [executeStatement_eq]
    decide
  ⟨hmem, rfl, executeStatement_reconnect_off_in_transaction healthyServer
    (freshState true [7, 8]) ⟨.commit, false⟩ hmem rfl⟩

/-! ## Attempts, pings and executions of one call -/

theorem pings_of_retried (srv : Server) (s : State) (h : s.data.retried = true) :
    pings srv s = false := by
  unfold pings
  split
  · rfl
  · simp [shouldReconnect, h]

theorem retries_of_retried (srv : Server) (s : State) (h : s.data.retried = true) :
    retries srv s = false := by
  unfold retries
  split
  · rfl
  · simp [shouldReconnect, h]

theorem timesExecuted_cons_other (j : Nat) (c : Call) (l : List Call)
    (hc : isStatementOrCommit c = false) : timesExecuted j (c :: l) = timesExecuted j l := by
  cases c <;> simp [isStatementOrCommit] at hc <;> simp [timesExecuted, executed]

theorem timesExecuted_nil (j : Nat) : timesExecuted j [] = 0 := rfl

/-- The calls of one call of `executeStatement`, counted path by path. -/
theorem executeStatement_counts (srv : Server) (s : State) :
    ∃ ev : List Event, (executeStatement srv s).1.connection = s.connection ++ ev ∧
      (ev.map Event.call).count (.autocommit false) = (if retries srv s then 2 else 1) ∧
      (ev.map Event.call).count .ping = (if pings srv s then 1 else 0) ∧
      (∀ j, timesExecuted j (ev.map Event.call) ≤ (if retries srv s then 2 else 1)) := by
  refine executeStatement_induction srv
    (fun s r => ∃ ev : List Event, r.1.connection = s.connection ++ ev ∧
      (ev.map Event.call).count (.autocommit false) = (if retries srv s then 2 else 1) ∧
      (ev.map Event.call).count .ping = (if pings srv s then 1 else 0) ∧
      (∀ j, timesExecuted j (ev.map Event.call) ≤ (if retries srv s then 2 else 1)))
    ?_ ?_ ?_ ?_ s
  · intro s hT
    obtain ⟨ev, hc, _, h1, h2, _, _, _, h6⟩ := tryBlock_calls srv (entryState s)
    have hr : retries srv s = false := by simp [retries, hT]
    have hp : pings srv s = false := by simp [pings, hT]
    refine ⟨ev ++ [⟨.autocommit true, false⟩], ?_, ?_, ?_, ?_⟩
    · rw [finishBlock_connection, hc, tryBlock_database]
      simp [entryState, State.setAutoReconnect, Database.setAutoReconnect, State.setStatus]
    · simp [hr, h1, List.count_cons]
    · simp [hp, h2, List.count_cons]
    · intro j
      have := h6 j
      simp only [hr, List.map_append, timesExecuted_append, List.map_cons, List.map_nil]
      simp [timesExecuted, executed]
      simpa [timesExecuted] using this
  · intro s error hT hs
    obtain ⟨ev, hc, _, h1, h2, _, _, _, h6⟩ := tryBlock_calls srv (entryState s)
    have hr : retries srv s = false := by simp [retries, hT, hs]
    have hp : pings srv s = false := by simp [pings, hT, hs]
    refine ⟨ev ++ [⟨.rollback, false⟩, ⟨.autocommit true, false⟩], ?_, ?_, ?_, ?_⟩
    · rw [finishBlock_connection, caughtState_record_connection, hc]
      simp [State.record, caughtState, State.setError, State.setResultStatus, tryBlock_database,
        entryState, State.setAutoReconnect, Database.setAutoReconnect, State.setStatus]
    · simp [hr, h1, List.count_cons]
    · simp [hp, h2, List.count_cons]
    · intro j
      have := h6 j
      simp only [hr, List.map_append, timesExecuted_append, List.map_cons, List.map_nil]
      simp [timesExecuted, executed]
      simpa [timesExecuted] using this
  · intro s error hT hs hping
    obtain ⟨ev, hc, _, h1, h2, _, _, _, h6⟩ := tryBlock_calls srv (entryState s)
    have hr : retries srv s = false := by simp [retries, hT, hs, hping]
    have hp : pings srv s = true := by simp [pings, hT, hs]
    refine ⟨ev ++ [⟨.ping, true⟩, ⟨.rollback, true⟩, ⟨.autocommit true, true⟩], ?_, ?_, ?_, ?_⟩
    · rw [finishBlock_connection, pingState_record_connection, pingState_record_flag, hc]
      simp [entryState, State.setAutoReconnect, State.setStatus]
    · simp [hr, h1, List.count_cons]
    · simp [hp, h2, List.count_cons]
    · intro j
      have := h6 j
      simp only [hr, List.map_append, timesExecuted_append, List.map_cons, List.map_nil]
      simp [timesExecuted, executed]
      simpa [timesExecuted] using this
  · intro s error hT hs hping ih
    obtain ⟨ev, hc, _, h1, h2, _, _, _, h6⟩ := tryBlock_calls srv (entryState s)
    obtain ⟨ev2, hc2, k1, k2, k3⟩ := ih
    have hr : retries srv s = true := by simp [retries, hT, hs, hping]
    have hp : pings srv s = true := by simp [pings, hT, hs]
    have hr2 := retries_of_retried srv (prepareRetry (pingState srv s error)) rfl
    have hp2 := pings_of_retried srv (prepareRetry (pingState srv s error)) rfl
    rw [hr2] at k1 k3
    rw [hp2] at k2
    refine ⟨ev ++ [⟨.ping, true⟩] ++ ev2, ?_, ?_, ?_, ?_⟩
    · show (executeStatement srv (prepareRetry (pingState srv s error))).1.connection = _
      rw [hc2]
      show (pingState srv s error).connection ++ ev2 = _
      rw [pingState_connection, hc]
      simp [entryState, State.setAutoReconnect, State.setStatus]
    · simp only [Bool.false_eq_true, if_false] at k1
      simp [hr, h1, k1, List.count_cons]
    · simp only [Bool.false_eq_true, if_false] at k2
      simp [hp, h2, k2, List.count_cons]
    · intro j
      have a1 := h6 j
      have a2 := k3 j
      simp only [Bool.false_eq_true, if_false] at a2
      simp only [hr, List.map_append, timesExecuted_append, List.map_cons, List.map_nil,
        if_true]
      have a3 : timesExecuted j [Call.ping] = 0 := rfl
      omega

/-- C6: for every batch and every connection behaviour (also one on which every statement
fails with a connection-lost error every time), one call of executeStatement makes at
least one and at most two attempts over the batch (turns autocommit off once or twice),
calls mysql_ping at most once and executes the statement at each position at most
twice. -/
theorem executeStatement_at_most_one_retry (srv : Server) (s : State) :
    1 ≤ (newCalls s (executeStatement srv s).1).count (.autocommit false) ∧
    (newCalls s (executeStatement srv s).1).count (.autocommit false) ≤ 2 ∧
    (newCalls s (executeStatement srv s).1).count .ping ≤ 1 ∧
    (∀ j, timesExecuted j (newCalls s (executeStatement srv s).1) ≤ 2) := by
  obtain ⟨ev, hc, h1, h2, h3⟩ := executeStatement_counts srv s
  rw [newCalls_of_append s _ ev hc, h1, h2]
  refine ⟨?_, ?_, ?_, ?_⟩
  · split <;> omega
  · split <;> omega
  · split <;> omega
  · intro j
    have := h3 j
    split at this <;> omega

theorem executeQueries_fst (srv : Server) (rc : Bool) :
    ∀ (qs : List (Query × IQueryData)) (hist : List Event) (idx : Nat),
      (executeQueries srv rc hist idx qs).2.1.map Prod.fst = qs.map Prod.fst
  | [], _, _ => by simp [executeQueries]
  | (cq, cd) :: rest, hist, idx => by
    cases hq : srv.executeQuery (hist ++ [⟨.executeQuery idx cq, rc⟩]) idx cq
      ((cd.setResultStatus .QUERY_NONE).setError "") with
    | none =>
      simp [executeQueries, hq,
        executeQueries_fst srv rc rest (hist ++ [⟨.executeQuery idx cq, rc⟩]) (idx + 1)]
    | some error => simp [executeQueries, hq]

/-- The `try` block keeps the query objects of the pairs, in order. -/
theorem tryBlock_fst (srv : Server) (s : State) :
    (tryBlock srv s).1.data.m_queries.map Prod.fst = s.data.m_queries.map Prod.fst := by
  unfold tryBlock
  simp only [State.record]
  split
  · rfl
  · split
    · exact executeQueries_fst _ _ _ _ _
    · split
      · exact executeQueries_fst _ _ _ _ _
      · exact executeQueries_fst _ _ _ _ _

theorem finishBlock_retried (old : Bool) (s : State) :
    (finishBlock old s).1.data.retried = s.data.retried := by
  rw [finishBlock_eq]

/-- The batch is marked as retried after a call exactly when it was so before or the call
made a second attempt. -/
theorem executeStatement_retried (srv : Server) (s : State) :
    (executeStatement srv s).1.data.retried = (s.data.retried || retries srv s) := by
  refine executeStatement_induction srv
    (fun s r => r.1.data.retried = (s.data.retried || retries srv s)) ?_ ?_ ?_ ?_ s
  · intro s hT
    have hr : retries srv s = false := by simp [retries, hT]
    rw [finishBlock_retried, tryBlock_retried, hr]
    simp [entryState, State.setAutoReconnect, State.setStatus]
  · intro s error hT hs
    have hr : retries srv s = false := by simp [retries, hT, hs]
    rw [finishBlock_retried, hr]
    show (tryBlock srv (entryState s)).1.data.retried = _
    rw [tryBlock_retried]
    simp [entryState, State.setAutoReconnect, State.setStatus]
  · intro s error hT hs hping
    have hr : retries srv s = false := by simp [retries, hT, hs, hping]
    rw [finishBlock_retried, hr]
    show (tryBlock srv (entryState s)).1.data.retried = _
    rw [tryBlock_retried]
    simp [entryState, State.setAutoReconnect, State.setStatus]
  · intro s error hT hs hping ih
    have hr : retries srv s = true := by simp [retries, hT, hs, hping]
    have hr2 := retries_of_retried srv (prepareRetry (pingState srv s error)) rfl
    rw [hr]
    show (executeStatement srv (prepareRetry (pingState srv s error))).1.data.retried = _
    rw [ih, hr2]
    simp [prepareRetry]

theorem retries_iff (srv : Server) (s : State) :
    retries srv s = true ↔
      ∃ error, (tryBlock srv (entryState s)).2 = some error ∧
        isConnectionLost error.errorCode = true ∧ s.data.retried = false ∧
        s.database.m_autoReconnect = true ∧
        srv.mysql_ping (pingState srv s error).connection = 0 := by
  unfold retries
  cases hT : (tryBlock srv (entryState s)).2 with
  | none => simp
  | some error =>
    simp only [shouldReconnect, isConnectionLost, Bool.and_eq_true, Bool.not_eq_true',
      beq_iff_eq, Option.some.injEq, exists_eq_left']
    tauto

theorem executeStatement_of_retries (srv : Server) (s : State) (error : MySQLException)
    (hT : (tryBlock srv (entryState s)).2 = some error)
    (hs : shouldReconnect s.database.m_autoReconnect s.data.retried error.errorCode = true)
    (hp : srv.mysql_ping (pingState srv s error).connection = 0) :
    executeStatement srv s =
      ((executeStatement srv (prepareRetry (pingState srv s error))).1.setAutoReconnect
        s.database.m_autoReconnect,
        (executeStatement srv (prepareRetry (pingState srv s error))).2) := by
  rw [executeStatement_eq]
  simp only [hT, hs, if_true]
  have hp2 := hp
  simp only [pingState, caughtState] at hp2
  rw [if_pos hp2]
  rfl

/-- C7: a second attempt over the batch is made (autocommit is turned off a second time)
if and only if the first attempt raises an error with code CR_SERVER_LOST or
CR_SERVER_GONE_ERROR, the batch's retried flag was false, auto-reconnect was enabled when
executeStatement was entered and mysql_ping returns 0.  When it is made, the call is the
call of executeStatement on the batch with every unit's finished flag reset to false and
retried set to true (the same query objects in the same order), followed by restoring the
flag, and the batch ends with retried=true.  When auto-reconnect was disabled at entry,
ping is never called and no statement is executed twice. -/
theorem executeStatement_retry_condition (srv : Server) (s : State) :
    ((newCalls s (executeStatement srv s).1).count (.autocommit false) = 2 ↔
      ∃ error, (tryBlock srv (entryState s)).2 = some error ∧
        isConnectionLost error.errorCode = true ∧ s.data.retried = false ∧
        s.database.m_autoReconnect = true ∧
        srv.mysql_ping (pingState srv s error).connection = 0) ∧
    (∀ error, (tryBlock srv (entryState s)).2 = some error →
      isConnectionLost error.errorCode = true → s.data.retried = false →
      s.database.m_autoReconnect = true →
      srv.mysql_ping (pingState srv s error).connection = 0 →
        (∀ p ∈ (prepareRetry (pingState srv s error)).data.m_queries, p.2.finished = false) ∧
        (prepareRetry (pingState srv s error)).data.retried = true ∧
        (prepareRetry (pingState srv s error)).data.m_queries.map Prod.fst =
          s.data.m_queries.map Prod.fst ∧
        executeStatement srv s =
          ((executeStatement srv (prepareRetry (pingState srv s error))).1.setAutoReconnect
            true, (executeStatement srv (prepareRetry (pingState srv s error))).2) ∧
        (executeStatement srv s).1.data.retried = true) ∧
    (s.database.m_autoReconnect = false →
      (newCalls s (executeStatement srv s).1).count .ping = 0 ∧
      ∀ j, timesExecuted j (newCalls s (executeStatement srv s).1) ≤ 1) := by
  obtain ⟨ev, hc, h1, h2, h3⟩ := executeStatement_counts srv s
  rw [newCalls_of_append s _ ev hc, h1, h2]
  refine ⟨?_, ?_, ?_⟩
  · rw [← retries_iff]
    cases retries srv s <;> simp
  · intro error hT hl hr ha hp
    have hs : shouldReconnect s.database.m_autoReconnect s.data.retried error.errorCode
        = true := by
      unfold isConnectionLost at hl
      simp [shouldReconnect, hr, ha, hl]
    refine ⟨?_, rfl, ?_, ?_, ?_⟩
    · intro p hp
      simp only [prepareRetry, List.mem_map] at hp
      obtain ⟨q, _, rfl⟩ := hp
      rfl
    · have hfst := tryBlock_fst srv (entryState s)
      simpa [prepareRetry, pingState, caughtState, State.record, State.setAutoReconnect,
        State.setError, State.setResultStatus, Function.comp_def, entryState,
        State.setStatus, IQueryData.setFinished] using hfst
    · rw [executeStatement_of_retries srv s error hT hs hp, ha]
    · rw [executeStatement_retried, (retries_iff srv s).mpr ⟨error, hT, hl, hr, ha, hp⟩]
      simp
  · intro ha
    have hp : pings srv s = false := by
      unfold pings
      split
      · rfl
      · simp [shouldReconnect, ha]
    have hr : retries srv s = false := by
      unfold retries
      split
      · rfl
      · simp [shouldReconnect, ha]
    refine ⟨by simp [hp], ?_⟩
    intro j
    have := h3 j
    simpa [hr] using this

theorem executeStatement_retry_condition_witness :
    (newCalls (freshState true [7, 8])
      (executeStatement (reconnectingServer 1 lostError)
        (freshState true [7, 8])).1).count (.autocommit false) = 2 ∧
    (executeStatement (reconnectingServer 1 lostError)
      (freshState true [7, 8])).1.data.retried = true ∧
    ((newCalls (freshState false [7, 8])
      (executeStatement (reconnectingServer 1 lostError)
        (freshState false [7, 8])).1).count .ping = 0 ∧
      ∀ j, timesExecuted j (newCalls (freshState false [7, 8])
        (executeStatement (reconnectingServer 1 lostError) (freshState false [7, 8])).1) ≤ 1) :=
  ⟨(executeStatement_retry_condition (reconnectingServer 1 lostError)
      (freshState true [7, 8])).1.mpr ⟨lostError, by decide, by decide, rfl, rfl, rfl⟩,
   ((executeStatement_retry_condition (reconnectingServer 1 lostError)
      (freshState true [7, 8])).2.1 lostError (by decide) (by decide) rfl rfl rfl).2.2.2.2,
   (executeStatement_retry_condition (reconnectingServer 1 lostError)
      (freshState false [7, 8])).2.2 rfl⟩

/-! ## A retry that succeeds -/

theorem queryEvents_congr (rc : Bool) :
    ∀ (l1 l2 : List (Query × IQueryData)) (idx : Nat), l1.map Prod.fst = l2.map Prod.fst →
      queryEvents rc idx l1 = queryEvents rc idx l2
  | [], [], _, _ => rfl
  | [], _ :: _, _, h => by simp at h
  | _ :: _, [], _, h => by simp at h
  | q1 :: l1, q2 :: l2, idx, h => by
    simp only [List.map_cons, List.cons.injEq] at h
    simp only [queryEvents, h.1, queryEvents_congr rc l1 l2 (idx + 1) h.2]

theorem fst_getElem_of_map_fst_eq (l1 l2 : List (Query × IQueryData))
    (h : l1.map Prod.fst = l2.map Prod.fst) (k : Nat) (h1 : k < l1.length)
    (h2 : k < l2.length) : (l1[k]).1 = (l2[k]).1 := by
  have e1 : (l1.map Prod.fst)[k]? = (l2.map Prod.fst)[k]? := by rw [h]
  simpa [List.getElem?_map, List.getElem?_eq_getElem h1, List.getElem?_eq_getElem h2] using e1

/-- The units with which the second attempt starts when the first attempt failed at
position `i`. -/
theorem map_retryUnits {β : Type} (F G : Query × IQueryData → β) (error : MySQLException)
    (qs : List (Query × IQueryData)) (i : Nat) (hi : i < qs.length)
    (h1 : ∀ q, F ((markSuccess q).1, (markSuccess q).2.setFinished false) = G q)
    (h2 : ∀ q, F ((markError error q).1, (markError error q).2.setFinished false) = G q)
    (h3 : ∀ q : Query × IQueryData, F (q.1, q.2.setFinished false) = G q) :
    (((qs.take i).map markSuccess ++ markError error qs[i] :: qs.drop (i + 1)).map
      (fun query => (query.1, query.2.setFinished false))).map F = qs.map G := by
  conv_rhs => rw [← List.take_append_drop i qs, List.drop_eq_getElem_cons hi]
  simp only [List.map_append, List.map_map, List.map_cons, Function.comp_def, h1, h2, h3]

/-- The call when the first attempt fails at position `i` with an error that passes the
test of lines 113-114, the ping returns 0, and turning autocommit off, every statement and
the commit succeed in the second attempt (each at the history at which it is reached). -/
theorem executeStatement_retry_ok (srv : Server) (s : State) (i : Nat)
    (hi : i < s.data.m_queries.length) (error : MySQLException)
    (hs : shouldReconnect s.database.m_autoReconnect s.data.retried error.errorCode = true)
    (ha : srv.mysqlAutocommit (s.connection ++ [⟨.autocommit false, false⟩]) false = none)
    (hq : ∀ (k : Nat) (hk : k < i),
      srv.executeQuery
        (s.connection ++ [⟨.autocommit false, false⟩] ++
          queryEvents false 0 (s.data.m_queries.take (k + 1))) k
        (s.data.m_queries[k]).1
        (((s.data.m_queries[k]).2.setResultStatus .QUERY_NONE).setError "") = none)
    (hf : srv.executeQuery
        (s.connection ++ [⟨.autocommit false, false⟩] ++
          queryEvents false 0 (s.data.m_queries.take (i + 1))) i
        (s.data.m_queries[i]).1
        (((s.data.m_queries[i]).2.setResultStatus .QUERY_NONE).setError "") = some error)
    (hp : srv.mysql_ping (s.connection ++ [⟨.autocommit false, false⟩] ++
          queryEvents false 0 (s.data.m_queries.take (i + 1)) ++ [⟨.ping, true⟩]) = 0)
    (ha2 : srv.mysqlAutocommit (s.connection ++ [⟨.autocommit false, false⟩] ++
          queryEvents false 0 (s.data.m_queries.take (i + 1)) ++ [⟨.ping, true⟩] ++
          [⟨.autocommit false, false⟩]) false = none)
    (hq2 : ∀ (k : Nat) (hk : k < s.data.m_queries.length) d,
      srv.executeQuery
        (s.connection ++ [⟨.autocommit false, false⟩] ++
          queryEvents false 0 (s.data.m_queries.take (i + 1)) ++ [⟨.ping, true⟩] ++
          [⟨.autocommit false, false⟩] ++
          queryEvents false 0 (s.data.m_queries.take (k + 1))) k
        (s.data.m_queries[k]).1 d = none)
    (hc2 : srv.mysql_commit
        (s.connection ++ [⟨.autocommit false, false⟩] ++
          queryEvents false 0 (s.data.m_queries.take (i + 1)) ++ [⟨.ping, true⟩] ++
          [⟨.autocommit false, false⟩] ++
          queryEvents false 0 s.data.m_queries ++ [⟨.commit, false⟩]) = 0) :
    executeStatement srv s =
      ({ database :=
          { m_autoReconnect := s.database.m_autoReconnect
            finishedQueries := s.database.finishedQueries ++ s.data.m_queries.map markSuccess }
         connection := s.connection ++ ([⟨.autocommit false, false⟩] ++
          queryEvents false 0 (s.data.m_queries.take (i + 1)) ++ [⟨.ping, true⟩] ++
          [⟨.autocommit false, false⟩] ++
          queryEvents false 0 s.data.m_queries ++ [⟨.commit, false⟩, ⟨.autocommit true, false⟩])
         data :=
          { base := ((((((s.data.base.setStatus .QUERY_RUNNING).setResultStatus
              .QUERY_ERROR).setError error.what).setStatus .QUERY_RUNNING).setResultStatus
              .QUERY_SUCCESS).setStatus .QUERY_COMPLETE)
            m_queries := s.data.m_queries.map markSuccess
            retried := true } }, true) := by
  have ht := tryBlock_fail srv (entryState s) i hi error ha hq hf
  have hT : (tryBlock srv (entryState s)).2 = some error := by rw [ht]
  have hs' : prepareRetry (pingState srv s error) =
      { database := { m_autoReconnect := true, finishedQueries := s.database.finishedQueries }
        connection := s.connection ++ [⟨.autocommit false, false⟩] ++
          queryEvents false 0 (s.data.m_queries.take (i + 1)) ++ [⟨.ping, true⟩]
        data :=
          { base := ((s.data.base.setStatus .QUERY_RUNNING).setResultStatus
              .QUERY_ERROR).setError error.what
            m_queries := ((s.data.m_queries.take i).map markSuccess ++
              markError error s.data.m_queries[i] :: s.data.m_queries.drop (i + 1)).map
                (fun query => (query.1, query.2.setFinished false))
            retried := true } } := by
    simp only [prepareRetry, pingState, caughtState]
    rw [ht]
    simp only [State.record, State.setAutoReconnect, State.setError, State.setResultStatus,
      Database.setAutoReconnect, Database.getAutoReconnect, entryState, State.setStatus]
  have hp' : srv.mysql_ping (pingState srv s error).connection = 0 := by
    have : (pingState srv s error).connection = (prepareRetry (pingState srv s error)).connection :=
      rfl
    rw [this, hs']
    exact hp
  have hfst := map_retryUnits Prod.fst Prod.fst error s.data.m_queries i hi
    (fun _ => rfl) (fun _ => rfl) (fun _ => rfl)
  have hms := map_retryUnits markSuccess markSuccess error s.data.m_queries i hi
    (fun _ => rfl) (fun _ => rfl) (fun _ => rfl)
  have hlen : (((s.data.m_queries.take i).map markSuccess ++
      markError error s.data.m_queries[i] :: s.data.m_queries.drop (i + 1)).map
        (fun query => (query.1, query.2.setFinished false))).length = s.data.m_queries.length := by
    have := congrArg List.length hfst
    simpa only [List.length_map] using this
  have hqe : ∀ k, queryEvents false 0
      ((((s.data.m_queries.take i).map markSuccess ++
        markError error s.data.m_queries[i] :: s.data.m_queries.drop (i + 1)).map
          (fun query => (query.1, query.2.setFinished false))).take k) =
      queryEvents false 0 (s.data.m_queries.take k) := by
    intro k
    apply queryEvents_congr
    have := congrArg (List.take k) hfst
    simpa only [List.map_take] using this
  have hqe0 : queryEvents false 0
      (((s.data.m_queries.take i).map markSuccess ++
        markError error s.data.m_queries[i] :: s.data.m_queries.drop (i + 1)).map
          (fun query => (query.1, query.2.setFinished false))) =
      queryEvents false 0 s.data.m_queries := queryEvents_congr _ _ _ _ hfst
  have hinner := executeStatement_ok srv (prepareRetry (pingState srv s error))
    (by rw [hs']; exact ha2)
    (by
      rw [hs']
      intro k hk
      have hk' : k < s.data.m_queries.length := by
        rw [← hlen]; exact hk
      dsimp only
      rw [hqe, fst_getElem_of_map_fst_eq _ _ hfst k hk hk']
      exact hq2 k hk' _)
    (by rw [hs']; dsimp only; rw [hqe0]; exact hc2)
  rw [executeStatement_of_retries srv s error hT hs hp', hinner, hs']
  simp only [State.setAutoReconnect, Database.setAutoReconnect, hms, hqe0, List.append_assoc]

theorem pinged_append (l1 l2 : List Event) : pinged (l1 ++ l2) = (pinged l1 || pinged l2) := by
  simp [pinged, List.any_append]

theorem pinged_queryEvents (rc : Bool) :
    ∀ (qs : List (Query × IQueryData)) (idx : Nat), pinged (queryEvents rc idx qs) = false
  | [], _ => rfl
  | q :: rest, idx => by
    have ih := pinged_queryEvents rc rest (idx + 1)
    simp only [pinged] at ih
    simp [pinged, queryEvents, ih]

/-- C8: for every batch whose first attempt fails at statement i with a connection-lost
error while auto-reconnect was enabled at entry and retried was false, if the ping
succeeds and every statement and the commit succeed once the connection has been pinged,
then after executeStatement returns retried=true, every unit has result status SUCCESS
with an empty error and finished=true, the statements 0..i of the first attempt were
followed by all statements of the batch in submission order, ping and commit were called
exactly once and rollback was never called. -/
theorem executeStatement_retry_succeeds (srv : Server) (s : State) (i : Nat)
    (hi : i < s.data.m_queries.length) (error : MySQLException)
    (hlost : isConnectionLost error.errorCode = true)
    (har : s.database.m_autoReconnect = true) (hnr : s.data.retried = false)
    (hauto : ∀ hist, srv.mysqlAutocommit hist false = none)
    (hok1 : ∀ ext, pinged ext = false → ∀ (k : Nat) (hk : k < i) d,
      srv.executeQuery (s.connection ++ ext) k (s.data.m_queries[k]).1 d = none)
    (hfail1 : ∀ ext, pinged ext = false → ∀ d,
      srv.executeQuery (s.connection ++ ext) i (s.data.m_queries[i]).1 d = some error)
    (hping : ∀ hist, srv.mysql_ping hist = 0)
    (hok2 : ∀ ext, pinged ext = true → ∀ (k : Nat) (hk : k < s.data.m_queries.length) d,
      srv.executeQuery (s.connection ++ ext) k (s.data.m_queries[k]).1 d = none)
    (hcommit : ∀ hist, srv.mysql_commit hist = 0) :
    (executeStatement srv s).1.data.retried = true ∧
    (∀ p ∈ (executeStatement srv s).1.data.m_queries,
      p.2.m_resultStatus = .QUERY_SUCCESS ∧ p.2.m_errorText = "" ∧ p.2.finished = true) ∧
    (executeStatement srv s).1.data.m_queries.map Prod.fst = s.data.m_queries.map Prod.fst ∧
    executed (newCalls s (executeStatement srv s).1) =
      ((s.data.m_queries.take (i + 1)).enumFrom 0).map (fun p => (p.1, p.2.1)) ++
        (s.data.m_queries.enumFrom 0).map (fun p => (p.1, p.2.1)) ∧
    (newCalls s (executeStatement srv s).1).count .ping = 1 ∧
    (newCalls s (executeStatement srv s).1).count .commit = 1 ∧
    (newCalls s (executeStatement srv s).1).count .rollback = 0 := by
  have hs : shouldReconnect s.database.m_autoReconnect s.data.retried error.errorCode
      = true := by
    unfold isConnectionLost at hlost
    simp [shouldReconnect, har, hnr, hlost]
  have hnp : ∀ k, pinged ([⟨.autocommit false, false⟩] ++
      queryEvents false 0 (s.data.m_queries.take k)) = false := by
    intro k
    rw [pinged_append, pinged_queryEvents]
    rfl
  have hyp : ∀ k, pinged ([⟨.autocommit false, false⟩] ++
      queryEvents false 0 (s.data.m_queries.take (i + 1)) ++ [⟨.ping, true⟩] ++
        [⟨.autocommit false, false⟩] ++ queryEvents false 0 (s.data.m_queries.take k))
      = true := by
    intro k
    simp [pinged_append, pinged]
  have h := executeStatement_retry_ok srv s i hi error hs (hauto _)
    (fun k hk => by
      rw [List.append_assoc]
      exact hok1 _ (hnp (k + 1)) k hk _)
    (by
      rw [List.append_assoc]
      exact hfail1 _ (hnp (i + 1)) _)
    (hping _) (hauto _)
    (fun k hk d => by
      have := hok2 _ (hyp (k + 1)) k hk d
      simpa only [List.append_assoc] using this)
    (hcommit _)
  have hn := newCalls_of_append s (executeStatement srv s).1 _ (by rw [h])
  rw [hn]
  rw [h]
  refine ⟨rfl, ?_, ?_, ?_, ?_, ?_, ?_⟩
  · intro p hp
    obtain ⟨q, _, rfl⟩ := List.mem_map.mp hp
    exact ⟨rfl, rfl, rfl⟩
  · simp [markSuccess, Function.comp_def]
  · simp [executed_append, executed_queryEvents, executed]
  · simp [List.count_cons, count_queryEvents]
  · simp [List.count_cons, count_queryEvents]
  · simp [List.count_cons, count_queryEvents]

theorem executeStatement_retry_succeeds_witness :
    (executeStatement (reconnectingServer 1 lostError)
      (freshState true [7, 8])).1.data.retried = true ∧
    (∀ p ∈ (executeStatement (reconnectingServer 1 lostError)
        (freshState true [7, 8])).1.data.m_queries,
      p.2.m_resultStatus = .QUERY_SUCCESS ∧ p.2.m_errorText = "" ∧ p.2.finished = true) ∧
    (executeStatement (reconnectingServer 1 lostError)
        (freshState true [7, 8])).1.data.m_queries.map Prod.fst =
      (freshState true [7, 8]).data.m_queries.map Prod.fst ∧
    executed (newCalls (freshState true [7, 8])
        (executeStatement (reconnectingServer 1 lostError) (freshState true [7, 8])).1) =
      (((freshState true [7, 8]).data.m_queries.take (1 + 1)).enumFrom 0).map
          (fun p => (p.1, p.2.1)) ++
        ((freshState true [7, 8]).data.m_queries.enumFrom 0).map (fun p => (p.1, p.2.1)) ∧
    (newCalls (freshState true [7, 8])
      (executeStatement (reconnectingServer 1 lostError)
        (freshState true [7, 8])).1).count .ping = 1 ∧
    (newCalls (freshState true [7, 8])
      (executeStatement (reconnectingServer 1 lostError)
        (freshState true [7, 8])).1).count .commit = 1 ∧
    (newCalls (freshState true [7, 8])
      (executeStatement (reconnectingServer 1 lostError)
        (freshState true [7, 8])).1).count .rollback = 0 :=
  executeStatement_retry_succeeds (reconnectingServer 1 lostError) (freshState true [7, 8]) 1
    (by decide) lostError (by decide) rfl rfl
    (fun _ => rfl)
    (fun ext _ k hk _ => by
      have hk0 : k ≠ 1 := by omega
      simp [reconnectingServer, hk0])
    (fun ext hext _ => by
      simp [reconnectingServer, freshState, hext])
    (fun _ => rfl)
    (fun ext hext k _ _ => by
      simp [reconnectingServer, freshState, hext])
    (fun _ => rfl)

/-! ## Rollback -/

theorem executeStatement_of_ok (srv : Server) (s : State)
    (hT : (tryBlock srv (entryState s)).2 = none) :
    executeStatement srv s =
      finishBlock s.database.m_autoReconnect (tryBlock srv (entryState s)).1 := by
  rw [executeStatement_eq]
  simp only [hT]

theorem executeStatement_of_no_reconnect (srv : Server) (s : State) (error : MySQLException)
    (hT : (tryBlock srv (entryState s)).2 = some error)
    (hs : shouldReconnect s.database.m_autoReconnect s.data.retried error.errorCode = false) :
    executeStatement srv s =
      finishBlock s.database.m_autoReconnect ((caughtState srv s error).record .rollback) := by
  rw [executeStatement_eq]
  simp only [hT, hs, Bool.false_eq_true, if_false]
  rfl

theorem executeStatement_of_ping_fails (srv : Server) (s : State) (error : MySQLException)
    (hT : (tryBlock srv (entryState s)).2 = some error)
    (hs : shouldReconnect s.database.m_autoReconnect s.data.retried error.errorCode = true)
    (hp : srv.mysql_ping (pingState srv s error).connection ≠ 0) :
    executeStatement srv s =
      finishBlock s.database.m_autoReconnect ((pingState srv s error).record .rollback) := by
  rw [executeStatement_eq]
  simp only [hT, hs, if_true]
  have hp2 := hp
  simp only [pingState, caughtState] at hp2
  rw [if_neg hp2]
  rfl

theorem executeQueries_congr (srv1 srv2 : Server) (h : srv1.executeQuery = srv2.executeQuery)
    (rc : Bool) : ∀ (qs : List (Query × IQueryData)) (hist : List Event) (idx : Nat),
      executeQueries srv1 rc hist idx qs = executeQueries srv2 rc hist idx qs
  | [], _, _ => rfl
  | (cq, cd) :: rest, hist, idx => by
    simp only [executeQueries, h,
      executeQueries_congr srv1 srv2 h rc rest (hist ++ [⟨.executeQuery idx cq, rc⟩]) (idx + 1)]

theorem tryBlock_congr (srv1 srv2 : Server) (h1 : srv1.mysqlAutocommit = srv2.mysqlAutocommit)
    (h2 : srv1.executeQuery = srv2.executeQuery) (h3 : srv1.mysql_commit = srv2.mysql_commit)
    (s : State) : tryBlock srv1 s = tryBlock srv2 s := by
  simp only [tryBlock, h1, h3, executeQueries_congr srv1 srv2 h2]

/-- Two connections that answer `mysqlAutocommit`, `executeQuery`, `mysql_commit` and
`mysql_ping` alike lead to the same outcome: the values returned by `mysql_rollback` and by
the final `mysql_autocommit` are not looked at. -/
theorem executeStatement_congr (srv1 srv2 : Server)
    (h1 : srv1.mysqlAutocommit = srv2.mysqlAutocommit)
    (h2 : srv1.executeQuery = srv2.executeQuery) (h3 : srv1.mysql_commit = srv2.mysql_commit)
    (h4 : srv1.mysql_ping = srv2.mysql_ping) :
    ∀ s, executeStatement srv1 s = executeStatement srv2 s := by
  have ht : ∀ s, tryBlock srv1 s = tryBlock srv2 s := tryBlock_congr srv1 srv2 h1 h2 h3
  have hcs : ∀ s e, caughtState srv1 s e = caughtState srv2 s e := by
    intro s e; simp only [caughtState, ht]
  have hps : ∀ s e, pingState srv1 s e = pingState srv2 s e := by
    intro s e; simp only [pingState, hcs]
  refine executeStatement_induction srv2 (fun s r => executeStatement srv1 s = r) ?_ ?_ ?_ ?_
  · intro s hT
    rw [executeStatement_of_ok srv1 s (by rw [ht]; exact hT), ht]
  · intro s error hT hs
    rw [executeStatement_of_no_reconnect srv1 s error (by rw [ht]; exact hT) hs, hcs]
  · intro s error hT hs hp
    rw [executeStatement_of_ping_fails srv1 s error (by rw [ht]; exact hT) hs
      (by rw [hps, h4]; exact hp), hps]
  · intro s error hT hs hp ih
    rw [executeStatement_of_retries srv1 s error (by rw [ht]; exact hT) hs
      (by rw [hps, h4]; exact hp), hps, ih]

theorem finishBlock_base (old : Bool) (s : State) :
    (finishBlock old s).1.data.base = s.data.base.setStatus .QUERY_COMPLETE := by
  rw [finishBlock_eq]

/-- The final result status of the batch and the number of rollbacks, path by path. -/
theorem executeStatement_rollbacks (srv : Server) (s : State) :
    ∃ ev : List Event, (executeStatement srv s).1.connection = s.connection ++ ev ∧
      (((executeStatement srv s).1.data.base.m_resultStatus = .QUERY_SUCCESS ∧
          (ev.map Event.call).count .rollback = 0) ∨
        ((executeStatement srv s).1.data.base.m_resultStatus = .QUERY_ERROR ∧
          (ev.map Event.call).count .rollback = 1)) := by
  refine executeStatement_induction srv
    (fun s r => ∃ ev : List Event, r.1.connection = s.connection ++ ev ∧
      ((r.1.data.base.m_resultStatus = .QUERY_SUCCESS ∧
          (ev.map Event.call).count .rollback = 0) ∨
        (r.1.data.base.m_resultStatus = .QUERY_ERROR ∧
          (ev.map Event.call).count .rollback = 1))) ?_ ?_ ?_ ?_ s
  · intro s hT
    obtain ⟨ev, hc, _, _, _, h3, _⟩ := tryBlock_calls srv (entryState s)
    obtain ⟨_, _, _, _, _, _, _, _, hst⟩ := tryBlock_structure srv (entryState s)
    refine ⟨ev ++ [⟨.autocommit true, false⟩], ?_, Or.inl ⟨?_, ?_⟩⟩
    · rw [finishBlock_connection, hc, tryBlock_database]
      simp [entryState, State.setAutoReconnect, Database.setAutoReconnect, State.setStatus]
    · rw [finishBlock_base]
      exact hst hT
    · simp [h3, List.count_cons]
  · intro s error _ _
    obtain ⟨ev, hc, _, _, _, h3, _⟩ := tryBlock_calls srv (entryState s)
    refine ⟨ev ++ [⟨.rollback, false⟩, ⟨.autocommit true, false⟩], ?_, Or.inr ⟨?_, ?_⟩⟩
    · rw [finishBlock_connection, caughtState_record_connection, hc]
      simp [State.record, caughtState, State.setError, State.setResultStatus, tryBlock_database,
        entryState, State.setAutoReconnect, Database.setAutoReconnect, State.setStatus]
    · rw [finishBlock_base]
      rfl
    · simp [h3, List.count_cons]
  · intro s error _ _ _
    obtain ⟨ev, hc, _, _, _, h3, _⟩ := tryBlock_calls srv (entryState s)
    refine ⟨ev ++ [⟨.ping, true⟩, ⟨.rollback, true⟩, ⟨.autocommit true, true⟩], ?_,
      Or.inr ⟨?_, ?_⟩⟩
    · rw [finishBlock_connection, pingState_record_connection, pingState_record_flag, hc]
      simp [entryState, State.setAutoReconnect, State.setStatus]
    · rw [finishBlock_base]
      rfl
    · simp [h3, List.count_cons]
  · intro s error _ _ _ ih
    obtain ⟨ev, hc, _, _, _, h3, _⟩ := tryBlock_calls srv (entryState s)
    obtain ⟨ev2, hc2, hor⟩ := ih
    refine ⟨ev ++ [⟨.ping, true⟩] ++ ev2, ?_, ?_⟩
    · show (executeStatement srv (prepareRetry (pingState srv s error))).1.connection = _
      rw [hc2]
      show (pingState srv s error).connection ++ ev2 = _
      rw [pingState_connection, hc]
      simp [entryState, State.setAutoReconnect, State.setStatus]
    · show ((executeStatement srv (prepareRetry (pingState srv s error))).1.data.base.m_resultStatus
          = .QUERY_SUCCESS ∧ _) ∨
        ((executeStatement srv (prepareRetry (pingState srv s error))).1.data.base.m_resultStatus
          = .QUERY_ERROR ∧ _)
      rcases hor with ⟨a, b⟩ | ⟨a, b⟩
      · exact Or.inl ⟨a, by simp [h3, b, List.count_cons]⟩
      · exact Or.inr ⟨a, by simp [h3, b, List.count_cons]⟩

/-- C9: for every batch and every connection behaviour the batch ends with result status
SUCCESS or ERROR, and one call of executeStatement calls mysql_rollback exactly once if
the final status is ERROR and never if it is SUCCESS.  When the first attempt raises a
connection-lost error (auto-reconnect enabled at entry, not yet retried) and the ping
fails, the batch ends with result status ERROR carrying that error's message, rollback is
called once, autocommit is turned off only once and no statement is executed a second
time.  The outcome does not depend on what mysql_rollback returns. -/
theorem executeStatement_rollback (srv : Server) (s : State) :
    (((executeStatement srv s).1.data.base.m_resultStatus = .QUERY_SUCCESS ∨
        (executeStatement srv s).1.data.base.m_resultStatus = .QUERY_ERROR) ∧
      ((executeStatement srv s).1.data.base.m_resultStatus = .QUERY_ERROR →
        (newCalls s (executeStatement srv s).1).count .rollback = 1) ∧
      ((executeStatement srv s).1.data.base.m_resultStatus = .QUERY_SUCCESS →
        (newCalls s (executeStatement srv s).1).count .rollback = 0)) ∧
    (∀ error, (tryBlock srv (entryState s)).2 = some error →
      isConnectionLost error.errorCode = true → s.data.retried = false →
      s.database.m_autoReconnect = true →
      srv.mysql_ping (pingState srv s error).connection ≠ 0 →
        (executeStatement srv s).1.data.base.m_resultStatus = .QUERY_ERROR ∧
        (executeStatement srv s).1.data.base.m_errorText = error.what ∧
        (newCalls s (executeStatement srv s).1).count .rollback = 1 ∧
        (newCalls s (executeStatement srv s).1).count (.autocommit false) = 1 ∧
        (∀ j, timesExecuted j (newCalls s (executeStatement srv s).1) ≤ 1)) ∧
    (∀ f, executeStatement { srv with mysql_rollback := f } s = executeStatement srv s) := by
  obtain ⟨ev, hc, hor⟩ := executeStatement_rollbacks srv s
  have hn := newCalls_of_append s _ ev hc
  have part1 : ((executeStatement srv s).1.data.base.m_resultStatus = .QUERY_SUCCESS ∨
        (executeStatement srv s).1.data.base.m_resultStatus = .QUERY_ERROR) ∧
      ((executeStatement srv s).1.data.base.m_resultStatus = .QUERY_ERROR →
        (newCalls s (executeStatement srv s).1).count .rollback = 1) ∧
      ((executeStatement srv s).1.data.base.m_resultStatus = .QUERY_SUCCESS →
        (newCalls s (executeStatement srv s).1).count .rollback = 0) := by
    rw [hn]
    rcases hor with ⟨a, b⟩ | ⟨a, b⟩
    · refine ⟨Or.inl a, ?_, fun _ => b⟩
      intro h; rw [a] at h; cases h
    · refine ⟨Or.inr a, fun _ => b, ?_⟩
      intro h; rw [a] at h; cases h
  refine ⟨part1, ?_, ?_⟩
  · intro error hT hl hr ha hp
    have hs : shouldReconnect s.database.m_autoReconnect s.data.retried error.errorCode
        = true := by
      unfold isConnectionLost at hl
      simp [shouldReconnect, hr, ha, hl]
    have he := executeStatement_of_ping_fails srv s error hT hs hp
    have hst : (executeStatement srv s).1.data.base.m_resultStatus = .QUERY_ERROR := by
      rw [he, finishBlock_base]; rfl
    have hret : retries srv s = false := by
      simp [retries, hT, hs, hp]
    obtain ⟨ev2, hc2, k1, _, k3⟩ := executeStatement_counts srv s
    have hn2 := newCalls_of_append s _ ev2 hc2
    refine ⟨hst, ?_, part1.2.1 hst, ?_, ?_⟩
    · rw [he, finishBlock_base]; rfl
    · rw [hn2, k1, hret]; rfl
    · intro j
      have := k3 j
      rw [hret] at this
      rw [hn2]
      exact this
  · intro f
    exact executeStatement_congr { srv with mysql_rollback := f } srv rfl rfl rfl rfl s

theorem executeStatement_rollback_witness :
    (executeStatement (deadServer 0 lostError)
      (freshState true [7, 8])).1.data.base.m_resultStatus = .QUERY_ERROR ∧
    (executeStatement (deadServer 0 lostError)
      (freshState true [7, 8])).1.data.base.m_errorText = lostError.what ∧
    (newCalls (freshState true [7, 8]) (executeStatement (deadServer 0 lostError)
      (freshState true [7, 8])).1).count .rollback = 1 ∧
    (newCalls (freshState true [7, 8]) (executeStatement (deadServer 0 lostError)
      (freshState true [7, 8])).1).count (.autocommit false) = 1 ∧
    (∀ j, timesExecuted j (newCalls (freshState true [7, 8])
      (executeStatement (deadServer 0 lostError) (freshState true [7, 8])).1) ≤ 1) :=
  (executeStatement_rollback (deadServer 0 lostError) (freshState true [7, 8])).2.1
    lostError (by decide) (by decide) rfl rfl (by decide)

/-! ## The completion queue -/

theorem finishBlock_queue (old : Bool) (s : State) :
    (finishBlock old s).1.database.finishedQueries =
      s.database.finishedQueries ++
        (finishBlock old s).1.data.m_queries.filter (fun p => p.2.finished) := by
  rw [finishBlock_eq]

theorem pingState_queue (srv : Server) (s : State) (error : MySQLException) :
    (pingState srv s error).database.finishedQueries = s.database.finishedQueries := by
  show (tryBlock srv (entryState s)).1.database.finishedQueries = _
  rw [tryBlock_database]
  rfl

theorem caughtState_queue (srv : Server) (s : State) (error : MySQLException) :
    (caughtState srv s error).database.finishedQueries = s.database.finishedQueries := by
  show (tryBlock srv (entryState s)).1.database.finishedQueries = _
  rw [tryBlock_database]
  rfl

/-- The completion queue after a call, for every connection behaviour. -/
theorem executeStatement_queue (srv : Server) (s : State) :
    (executeStatement srv s).1.database.finishedQueries =
      s.database.finishedQueries ++
        (executeStatement srv s).1.data.m_queries.filter (fun p => p.2.finished) := by
  refine executeStatement_induction srv
    (fun s r => r.1.database.finishedQueries =
      s.database.finishedQueries ++ r.1.data.m_queries.filter (fun p => p.2.finished))
    ?_ ?_ ?_ ?_ s
  · intro s _
    rw [finishBlock_queue, tryBlock_database]
    rfl
  · intro s error _ _
    rw [finishBlock_queue]
    congr 1
    exact caughtState_queue srv s error
  · intro s error _ _ _
    rw [finishBlock_queue]
    congr 1
    exact pingState_queue srv s error
  · intro s error _ _ _ ih
    show (executeStatement srv (prepareRetry (pingState srv s error))).1.database.finishedQueries
      = s.database.finishedQueries ++
        (executeStatement srv (prepareRetry (pingState srv s error))).1.data.m_queries.filter
          (fun p => p.2.finished)
    rw [ih]
    congr 1
    exact pingState_queue srv s error

/-- C10: for every batch and every connection behaviour (a retry included), the pairs put
on the completion queue by one call of executeStatement are exactly the pairs of the batch
whose unit is finished when the call returns, in batch order, each of them once (they form
a sublist of the batch); an attempt that is abandoned for a retry puts nothing on the
queue: the second attempt starts with the queue as it was when the call was entered. -/
theorem executeStatement_completion_queue (srv : Server) (s : State) :
    newlyFinished s (executeStatement srv s).1 =
      (executeStatement srv s).1.data.m_queries.filter (fun p => p.2.finished) ∧
    (executeStatement srv s).1.database.finishedQueries =
      s.database.finishedQueries ++ newlyFinished s (executeStatement srv s).1 ∧
    List.Sublist (newlyFinished s (executeStatement srv s).1)
      (executeStatement srv s).1.data.m_queries ∧
    (∀ error, (tryBlock srv (entryState s)).2 = some error →
      isConnectionLost error.errorCode = true → s.data.retried = false →
      s.database.m_autoReconnect = true →
      srv.mysql_ping (pingState srv s error).connection = 0 →
        (prepareRetry (pingState srv s error)).database.finishedQueries =
          s.database.finishedQueries ∧
        newlyFinished s (executeStatement srv s).1 =
          newlyFinished (prepareRetry (pingState srv s error))
            (executeStatement srv (prepareRetry (pingState srv s error))).1) := by
  have hq := executeStatement_queue srv s
  have hn := newlyFinished_of_append s _ _ hq
  refine ⟨hn, ?_, ?_, ?_⟩
  · rw [hn]; exact hq
  · rw [hn]; exact List.filter_sublist _
  · intro error hT hl hr ha hp
    have hs : shouldReconnect s.database.m_autoReconnect s.data.retried error.errorCode
        = true := by
      unfold isConnectionLost at hl
      simp [shouldReconnect, hr, ha, hl]
    have hq2 := executeStatement_queue srv (prepareRetry (pingState srv s error))
    have hn2 := newlyFinished_of_append _ _ _ hq2
    refine ⟨pingState_queue srv s error, ?_⟩
    rw [hn, hn2, executeStatement_of_retries srv s error hT hs hp]
    rfl

theorem executeStatement_completion_queue_witness :
    (prepareRetry (pingState (reconnectingServer 1 lostError) (freshState true [7, 8])
      lostError)).database.finishedQueries = (freshState true [7, 8]).database.finishedQueries ∧
    newlyFinished (freshState true [7, 8])
        (executeStatement (reconnectingServer 1 lostError) (freshState true [7, 8])).1 =
      newlyFinished (prepareRetry (pingState (reconnectingServer 1 lostError)
          (freshState true [7, 8]) lostError))
        (executeStatement (reconnectingServer 1 lostError)
          (prepareRetry (pingState (reconnectingServer 1 lostError)
            (freshState true [7, 8]) lostError))).1 :=
  (executeStatement_completion_queue (reconnectingServer 1 lostError)
    (freshState true [7, 8])).2.2.2 lostError (by decide) (by decide) rfl rfl rfl

/-! ## Callbacks -/

/-- C11 (counterexample): a finished unit with result status SUCCESS, no success reference
and the first-data flag unset gets no callback at all, and neither does such a unit with
result status ERROR. -/
theorem doCallback_counterexample :
    (doCallback (finishedData .QUERY_SUCCESS "" 0 0 false)).2 = [] ∧
    (doCallback (finishedData .QUERY_ERROR "syntax error" 0 0 false)).2 = [] := by
  decide

/-- C11 (amended): for every finished unit handed to doCallback (result status SUCCESS or
ERROR, any callback references and first-data flag) doCallback invokes at most one
callback; it invokes exactly one when the reference that belongs to the result status is
non-zero or the unit is first-data, and none otherwise. -/
theorem doCallback_at_most_one (data : TransactionData)
    (h : data.base.m_resultStatus = .QUERY_SUCCESS ∨ data.base.m_resultStatus = .QUERY_ERROR) :
    (doCallback data).2.length ≤ 1 ∧
    (data.base.m_resultStatus = .QUERY_SUCCESS →
      ((doCallback data).2.length = 1 ↔
        (data.base.m_successReference ≠ 0 ∨ data.base.m_wasFirstData = true))) ∧
    (data.base.m_resultStatus = .QUERY_ERROR →
      ((doCallback data).2.length = 1 ↔
        (data.base.m_errorReference ≠ 0 ∨ data.base.m_wasFirstData = true))) := by
  rcases h with h | h
  · refine ⟨?_, ?_, ?_⟩
    · simp only [doCallback, IQueryData.getResultStatus, IQueryData.setStatus, h]
      split_ifs <;> simp
    · intro _
      simp only [doCallback, IQueryData.getResultStatus, IQueryData.setStatus, h,
        IQueryData.getSuccessReference, IQueryData.isFirstData]
      split_ifs with h1 h2 <;> simp_all
    · intro h2
      rw [h] at h2
      cases h2
  · refine ⟨?_, ?_, ?_⟩
    · simp only [doCallback, IQueryData.getResultStatus, IQueryData.setStatus, h]
      split_ifs <;> simp
    · intro h2
      rw [h] at h2
      cases h2
    · intro _
      simp only [doCallback, IQueryData.getResultStatus, IQueryData.setStatus, h,
        IQueryData.getErrorReference, IQueryData.isFirstData]
      split_ifs with h1 h2 <;> simp_all

theorem doCallback_at_most_one_witness :
    (doCallback (finishedData .QUERY_ERROR "syntax error" 0 0 true)).2.length ≤ 1 ∧
    ((finishedData .QUERY_ERROR "syntax error" 0 0 true).base.m_resultStatus = .QUERY_SUCCESS →
      ((doCallback (finishedData .QUERY_ERROR "syntax error" 0 0 true)).2.length = 1 ↔
        ((finishedData .QUERY_ERROR "syntax error" 0 0 true).base.m_successReference ≠ 0 ∨
          (finishedData .QUERY_ERROR "syntax error" 0 0 true).base.m_wasFirstData = true))) ∧
    ((finishedData .QUERY_ERROR "syntax error" 0 0 true).base.m_resultStatus = .QUERY_ERROR →
      ((doCallback (finishedData .QUERY_ERROR "syntax error" 0 0 true)).2.length = 1 ↔
        ((finishedData .QUERY_ERROR "syntax error" 0 0 true).base.m_errorReference ≠ 0 ∨
          (finishedData .QUERY_ERROR "syntax error" 0 0 true).base.m_wasFirstData = true))) :=
  doCallback_at_most_one (finishedData .QUERY_ERROR "syntax error" 0 0 true) (Or.inr rfl)

/-- C16: doCallback always sets the status to COMPLETE and changes nothing else.  For
result status ERROR it calls the error reference with the error message when that
reference is non-zero, otherwise the callback "onError" with the error message exactly
when the unit is first-data; for SUCCESS it calls the success reference when it is
non-zero, otherwise "onSuccess" exactly when the unit is first-data; for NONE it calls
nothing.  It never makes more than one call, every call for an ERROR unit is an error
callback carrying the message and every call for a SUCCESS unit is a success callback, and
a non-zero reference is used whatever the first-data flag is. -/
theorem doCallback_dispatch (data : TransactionData) :
    (doCallback data).1 = { data with base := data.base.setStatus .QUERY_COMPLETE } ∧
    (doCallback data).1.base.m_status = .QUERY_COMPLETE ∧
    (data.base.m_resultStatus = .QUERY_ERROR → data.base.m_errorReference ≠ 0 →
      (doCallback data).2 = [.runFunction data.base.m_errorReference [data.base.m_errorText]]) ∧
    (data.base.m_resultStatus = .QUERY_ERROR → data.base.m_errorReference = 0 →
      data.base.m_wasFirstData = true →
      (doCallback data).2 = [.runCallback "onError" [data.base.m_errorText]]) ∧
    (data.base.m_resultStatus = .QUERY_ERROR → data.base.m_errorReference = 0 →
      data.base.m_wasFirstData = false → (doCallback data).2 = []) ∧
    (data.base.m_resultStatus = .QUERY_SUCCESS → data.base.m_successReference ≠ 0 →
      (doCallback data).2 = [.runFunction data.base.m_successReference []]) ∧
    (data.base.m_resultStatus = .QUERY_SUCCESS → data.base.m_successReference = 0 →
      data.base.m_wasFirstData = true → (doCallback data).2 = [.runCallback "onSuccess" []]) ∧
    (data.base.m_resultStatus = .QUERY_SUCCESS → data.base.m_successReference = 0 →
      data.base.m_wasFirstData = false → (doCallback data).2 = []) ∧
    (data.base.m_resultStatus = .QUERY_NONE → (doCallback data).2 = []) ∧
    (doCallback data).2.length ≤ 1 ∧
    (data.base.m_resultStatus = .QUERY_ERROR → ∀ inv ∈ (doCallback data).2,
      inv = .runFunction data.base.m_errorReference [data.base.m_errorText] ∨
      inv = .runCallback "onError" [data.base.m_errorText]) ∧
    (data.base.m_resultStatus = .QUERY_SUCCESS → ∀ inv ∈ (doCallback data).2,
      inv = .runFunction data.base.m_successReference [] ∨
      inv = .runCallback "onSuccess" []) := by
  have hfst : (doCallback data).1 = { data with base := data.base.setStatus .QUERY_COMPLETE } := by
    simp only [doCallback]
    split
    · rfl
    · split_ifs <;> rfl
    · split_ifs <;> rfl
  refine ⟨hfst, by rw [hfst]; rfl, ?_, ?_, ?_, ?_, ?_, ?_, ?_, ?_, ?_, ?_⟩
  · intro h h1
    simp [doCallback, IQueryData.getResultStatus, IQueryData.setStatus, h,
      IQueryData.getErrorReference, IQueryData.getError, h1]
  · intro h h1 h2
    simp [doCallback, IQueryData.getResultStatus, IQueryData.setStatus, h,
      IQueryData.getErrorReference, IQueryData.getError, IQueryData.isFirstData, h1, h2]
  · intro h h1 h2
    simp [doCallback, IQueryData.getResultStatus, IQueryData.setStatus, h,
      IQueryData.getErrorReference, IQueryData.isFirstData, h1, h2]
  · intro h h1
    simp [doCallback, IQueryData.getResultStatus, IQueryData.setStatus, h,
      IQueryData.getSuccessReference, h1]
  · intro h h1 h2
    simp [doCallback, IQueryData.getResultStatus, IQueryData.setStatus, h,
      IQueryData.getSuccessReference, IQueryData.isFirstData, h1, h2]
  · intro h h1 h2
    simp [doCallback, IQueryData.getResultStatus, IQueryData.setStatus, h,
      IQueryData.getSuccessReference, IQueryData.isFirstData, h1, h2]
  · intro h
    simp [doCallback, IQueryData.getResultStatus, IQueryData.setStatus, h]
  · simp only [doCallback]
    split
    · simp
    · split_ifs <;> simp
    · split_ifs <;> simp
  · intro h inv hinv
    simp only [doCallback, IQueryData.getResultStatus, IQueryData.setStatus, h,
      IQueryData.getErrorReference, IQueryData.getError, IQueryData.isFirstData] at hinv
    split_ifs at hinv <;> simp_all
  · intro h inv hinv
    simp only [doCallback, IQueryData.getResultStatus, IQueryData.setStatus, h,
      IQueryData.getSuccessReference, IQueryData.isFirstData] at hinv
    split_ifs at hinv <;> simp_all

theorem doCallback_dispatch_witness :
    (doCallback (finishedData .QUERY_ERROR "syntax error" 5 6 true)).2 =
      [.runFunction 5 ["syntax error"]] ∧
    (doCallback (finishedData .QUERY_ERROR "syntax error" 0 6 true)).2 =
      [.runCallback "onError" ["syntax error"]] ∧
    (doCallback (finishedData .QUERY_SUCCESS "" 5 0 true)).2 = [.runCallback "onSuccess" []] ∧
    (doCallback (finishedData .QUERY_NONE "" 5 6 true)).2 = [] :=
  ⟨(doCallback_dispatch (finishedData .QUERY_ERROR "syntax error" 5 6 true)).2.2.1 rfl
      (by decide),
   (doCallback_dispatch (finishedData .QUERY_ERROR "syntax error" 0 6 true)).2.2.2.1 rfl rfl
      rfl,
   (doCallback_dispatch (finishedData .QUERY_SUCCESS "" 5 0 true)).2.2.2.2.2.2.1 rfl rfl rfl,
   (doCallback_dispatch (finishedData .QUERY_NONE "" 5 6 true)).2.2.2.2.2.2.2.2.1 rfl⟩

/-! ## The queue of the transaction object -/

theorem addQueries_m_queries : ∀ (pairs : List (Query × IQueryData)) (transaction : Transaction),
    (addQueries transaction pairs).m_queries = transaction.m_queries ++ pairs
  | [], transaction => by simp [addQueries]
  | p :: rest, transaction => by
    have ih := addQueries_m_queries rest (addQuery transaction p.1 p.2)
    simp only [addQueries, List.foldl_cons] at ih ⊢
    rw [ih]
    simp [addQuery]

/-- C12: buildQueryData returns a batch whose pairs are the queue of the transaction
object immediately before the call, which is the queue's earlier content followed by the
pairs appended since, in append order, and leaves the queue empty; a second snapshot
without an append in between is empty, and a second snapshot after further appends
holds exactly those later pairs, so two consecutive snapshots never overlap. -/
theorem buildQueryData_snapshot (transaction : Transaction)
    (pairs : List (Query × IQueryData)) :
    (buildQueryData transaction).1.m_queries = transaction.m_queries ∧
    (buildQueryData (addQueries transaction pairs)).1.m_queries =
      transaction.m_queries ++ pairs ∧
    (buildQueryData transaction).2.m_queries = [] ∧
    (buildQueryData (buildQueryData transaction).2).1.m_queries = [] ∧
    (buildQueryData (addQueries (buildQueryData transaction).2 pairs)).1.m_queries = pairs := by
  refine ⟨rfl, ?_, rfl, rfl, ?_⟩
  · show (addQueries transaction pairs).m_queries = _
    exact addQueries_m_queries pairs transaction
  · show (addQueries (buildQueryData transaction).2 pairs).m_queries = _
    rw [addQueries_m_queries]
    rfl

theorem executed_queryEvents_lt (rc : Bool) :
    ∀ (qs : List (Query × IQueryData)) (idx : Nat),
      ∀ p ∈ executed ((queryEvents rc idx qs).map Event.call), p.1 < idx + qs.length
  | [], _ => by simp [queryEvents, executed]
  | q :: rest, idx => by
    intro p hp
    simp only [queryEvents, List.map_cons, executed, List.mem_cons] at hp
    rcases hp with rfl | hp
    · simp
    · have := executed_queryEvents_lt rc rest (idx + 1) p hp
      simp only [List.length_cons]
      omega

/-- Every statement executed by one `try` block is at a position of the batch. -/
theorem tryBlock_executed (srv : Server) (s : State) :
    ∃ ev : List Event, (tryBlock srv s).1.connection = s.connection ++ ev ∧
      ∀ p ∈ executed (ev.map Event.call), p.1 < s.data.m_queries.length := by
  obtain ⟨k, c, hk, h1, _⟩ := tryBlock_structure srv s
  refine ⟨_, h1, ?_⟩
  intro p hp
  have hc : executed (List.map Event.call
      (if c = true then [⟨Call.commit, s.database.m_autoReconnect⟩] else [])) = [] := by
    cases c <;> rfl
  rw [List.cons_append, List.map_cons] at hp
  change p ∈ executed (List.map Event.call
    (queryEvents s.database.m_autoReconnect 0 (s.data.m_queries.take k) ++
      (if c = true then [⟨Call.commit, s.database.m_autoReconnect⟩] else []))) at hp
  rw [List.map_append, executed_append, hc, List.append_nil] at hp
  have := executed_queryEvents_lt _ _ _ p hp
  simp only [List.length_take] at this
  omega

theorem prepareRetry_pingState_length (srv : Server) (s : State) (error : MySQLException) :
    (prepareRetry (pingState srv s error)).data.m_queries.length = s.data.m_queries.length := by
  obtain ⟨_, _, _, _, _, _, hl, _⟩ := tryBlock_structure srv (entryState s)
  show (List.map _ (tryBlock srv (entryState s)).1.data.m_queries).length = _
  rw [List.length_map, hl]
  rfl

/-- Every statement executed by one call is at a position of the batch. -/
theorem executeStatement_executed_bound (srv : Server) (s : State) :
    ∃ ev : List Event, (executeStatement srv s).1.connection = s.connection ++ ev ∧
      ∀ p ∈ executed (ev.map Event.call), p.1 < s.data.m_queries.length := by
  refine executeStatement_induction srv
    (fun s r => ∃ ev : List Event, r.1.connection = s.connection ++ ev ∧
      ∀ p ∈ executed (ev.map Event.call), p.1 < s.data.m_queries.length) ?_ ?_ ?_ ?_ s
  · intro s _
    obtain ⟨ev, hc, hb⟩ := tryBlock_executed srv (entryState s)
    refine ⟨ev ++ [⟨.autocommit true, false⟩], ?_, ?_⟩
    · rw [finishBlock_connection, hc, tryBlock_database]
      simp [entryState, State.setAutoReconnect, Database.setAutoReconnect, State.setStatus]
    · intro p hp
      simp only [List.map_append, executed_append, List.map_cons, List.map_nil, executed,
        List.append_nil] at hp
      exact hb p hp
  · intro s error _ _
    obtain ⟨ev, hc, hb⟩ := tryBlock_executed srv (entryState s)
    refine ⟨ev ++ [⟨.rollback, false⟩, ⟨.autocommit true, false⟩], ?_, ?_⟩
    · rw [finishBlock_connection, caughtState_record_connection, hc]
      simp [State.record, caughtState, State.setError, State.setResultStatus, tryBlock_database,
        entryState, State.setAutoReconnect, Database.setAutoReconnect, State.setStatus]
    · intro p hp
      simp only [List.map_append, executed_append, List.map_cons, List.map_nil, executed,
        List.append_nil] at hp
      exact hb p hp
  · intro s error _ _ _
    obtain ⟨ev, hc, hb⟩ := tryBlock_executed srv (entryState s)
    refine ⟨ev ++ [⟨.ping, true⟩, ⟨.rollback, true⟩, ⟨.autocommit true, true⟩], ?_, ?_⟩
    · rw [finishBlock_connection, pingState_record_connection, pingState_record_flag, hc]
      simp [entryState, State.setAutoReconnect, State.setStatus]
    · intro p hp
      simp only [List.map_append, executed_append, List.map_cons, List.map_nil, executed,
        List.append_nil] at hp
      exact hb p hp
  · intro s error _ _ _ ih
    obtain ⟨ev, hc, hb⟩ := tryBlock_executed srv (entryState s)
    obtain ⟨ev2, hc2, hb2⟩ := ih
    rw [prepareRetry_pingState_length] at hb2
    refine ⟨ev ++ [⟨.ping, true⟩] ++ ev2, ?_, ?_⟩
    · show (executeStatement srv (prepareRetry (pingState srv s error))).1.connection = _
      rw [hc2]
      show (pingState srv s error).connection ++ ev2 = _
      rw [pingState_connection, hc]
      simp [entryState, State.setAutoReconnect, State.setStatus]
    · intro p hp
      simp only [List.map_append, executed_append, List.map_cons, List.map_nil, executed,
        List.append_nil, List.mem_append] at hp
      rcases hp with hp | hp
      · exact hb p hp
      · exact hb2 p hp

/-- A call keeps the query objects of the pairs, in order. -/
theorem executeStatement_fst (srv : Server) (s : State) :
    (executeStatement srv s).1.data.m_queries.map Prod.fst = s.data.m_queries.map Prod.fst := by
  have hprep : ∀ s error, (prepareRetry (pingState srv s error)).data.m_queries.map Prod.fst =
      s.data.m_queries.map Prod.fst := by
    intro s error
    have hfst := tryBlock_fst srv (entryState s)
    simpa [prepareRetry, pingState, caughtState, State.record, State.setAutoReconnect,
      State.setError, State.setResultStatus, Function.comp_def, entryState,
      State.setStatus, IQueryData.setFinished] using hfst
  refine executeStatement_induction srv
    (fun s r => r.1.data.m_queries.map Prod.fst = s.data.m_queries.map Prod.fst) ?_ ?_ ?_ ?_ s
  · intro s _
    rw [finishBlock_eq]
    exact tryBlock_fst srv (entryState s)
  · intro s error _ _
    rw [finishBlock_eq]
    exact tryBlock_fst srv (entryState s)
  · intro s error _ _ _
    rw [finishBlock_eq]
    exact tryBlock_fst srv (entryState s)
  · intro s error _ _ _ ih
    show (executeStatement srv (prepareRetry (pingState srv s error))).1.data.m_queries.map
      Prod.fst = _
    rw [ih, hprep]

/-- C13: whatever was appended to the transaction object, clearQueries leaves its queue
empty, a snapshot taken afterwards is an empty batch, and executeStatement on that empty
batch, on any database and connection, executes no statement and puts nothing on the
completion queue, so that no callback can fire for a cleared statement. -/
theorem clearQueries_empties (transaction : Transaction) (pairs : List (Query × IQueryData))
    (srv : Server) (database : Database) (connection : List Event) :
    (clearQueries (addQueries transaction pairs)).m_queries = [] ∧
    (buildQueryData (clearQueries (addQueries transaction pairs))).1.m_queries = [] ∧
    executed (newCalls
      ⟨database, connection, (buildQueryData (clearQueries (addQueries transaction pairs))).1⟩
      (executeStatement srv ⟨database, connection,
        (buildQueryData (clearQueries (addQueries transaction pairs))).1⟩).1) = [] ∧
    newlyFinished
      ⟨database, connection, (buildQueryData (clearQueries (addQueries transaction pairs))).1⟩
      (executeStatement srv ⟨database, connection,
        (buildQueryData (clearQueries (addQueries transaction pairs))).1⟩).1 = [] ∧
    (executeStatement srv ⟨database, connection,
      (buildQueryData (clearQueries (addQueries transaction pairs))).1⟩).1.database.finishedQueries
      = database.finishedQueries := by
  have hs : ∀ s : State, s.data.m_queries = [] →
      executed (newCalls s (executeStatement srv s).1) = [] ∧
      newlyFinished s (executeStatement srv s).1 = [] ∧
      (executeStatement srv s).1.database.finishedQueries = s.database.finishedQueries := by
    intro s hempty
    obtain ⟨ev, hc, hb⟩ := executeStatement_executed_bound srv s
    have hq := executeStatement_queue srv s
    have hfst := executeStatement_fst srv s
    rw [hempty] at hfst
    have hnil : (executeStatement srv s).1.data.m_queries = [] := by
      simpa using hfst
    rw [hnil] at hq
    simp only [List.filter_nil, List.append_nil] at hq
    refine ⟨?_, ?_, hq⟩
    · rw [newCalls_of_append s _ ev hc]
      apply List.eq_nil_iff_forall_not_mem.mpr
      intro p hp
      have := hb p hp
      rw [hempty] at this
      exact Nat.not_lt_zero _ this
    · simp [newlyFinished, hq]
  exact ⟨rfl, rfl, hs _ rfl⟩

/-! ## A commit that fails -/

/-- The `try` block when turning autocommit off and every statement succeed and
`mysql_commit` reports failure, at the histories at which they are reached. -/
theorem tryBlock_commit_fail (srv : Server) (s : State)
    (ha : srv.mysqlAutocommit (s.connection ++ [⟨.autocommit false, s.database.m_autoReconnect⟩])
      false = none)
    (hq : ∀ (k : Nat) (hk : k < s.data.m_queries.length),
      srv.executeQuery
        (s.connection ++ [⟨.autocommit false, s.database.m_autoReconnect⟩] ++
          queryEvents s.database.m_autoReconnect 0 (s.data.m_queries.take (k + 1))) k
        (s.data.m_queries[k]).1
        (((s.data.m_queries[k]).2.setResultStatus .QUERY_NONE).setError "") = none)
    (hc : srv.mysql_commit
        (s.connection ++ [⟨.autocommit false, s.database.m_autoReconnect⟩] ++
          queryEvents s.database.m_autoReconnect 0 s.data.m_queries ++
          [⟨.commit, s.database.m_autoReconnect⟩]) ≠ 0) :
    tryBlock srv s =
      ({ database := s.database
         connection := s.connection ++ [⟨.autocommit false, s.database.m_autoReconnect⟩] ++
          queryEvents s.database.m_autoReconnect 0 s.data.m_queries ++
          [⟨.commit, s.database.m_autoReconnect⟩]
         data :=
          { base := s.data.base
            m_queries := s.data.m_queries.map markSuccess
            retried := s.data.retried } }, some ⟨CR_UNKNOWN_ERROR, "commit failed"⟩) := by
  have hl := executeQueries_ok srv s.database.m_autoReconnect s.data.m_queries
    (s.connection ++ [⟨.autocommit false, s.database.m_autoReconnect⟩]) 0
    (by intro k hk; simpa using hq k hk)
  simp only [tryBlock, State.record, Database.getAutoReconnect, ha, hl, hc, ne_eq,
    not_false_eq_true, if_true]

theorem shouldReconnect_unknown (old retried : Bool) :
    shouldReconnect old retried CR_UNKNOWN_ERROR = false := by
  cases old <;> cases retried <;> decide

/-- The call when turning autocommit off and every statement succeed and `mysql_commit`
reports failure. -/
theorem executeStatement_commit_fail (srv : Server) (s : State)
    (ha : srv.mysqlAutocommit (s.connection ++ [⟨.autocommit false, false⟩]) false = none)
    (hq : ∀ (k : Nat) (hk : k < s.data.m_queries.length),
      srv.executeQuery
        (s.connection ++ [⟨.autocommit false, false⟩] ++
          queryEvents false 0 (s.data.m_queries.take (k + 1))) k
        (s.data.m_queries[k]).1
        (((s.data.m_queries[k]).2.setResultStatus .QUERY_NONE).setError "") = none)
    (hc : srv.mysql_commit
        (s.connection ++ [⟨.autocommit false, false⟩] ++
          queryEvents false 0 s.data.m_queries ++ [⟨.commit, false⟩]) ≠ 0) :
    executeStatement srv s =
      ({ database :=
          { m_autoReconnect := s.database.m_autoReconnect
            finishedQueries := s.database.finishedQueries ++ s.data.m_queries.map markSuccess }
         connection := s.connection ++ ([⟨.autocommit false, false⟩] ++
          queryEvents false 0 s.data.m_queries ++
            [⟨.commit, false⟩, ⟨.rollback, false⟩, ⟨.autocommit true, false⟩])
         data :=
          { base := (((s.data.base.setStatus .QUERY_RUNNING).setResultStatus
              .QUERY_ERROR).setError "commit failed").setStatus .QUERY_COMPLETE
            m_queries := s.data.m_queries.map markSuccess
            retried := s.data.retried } }, true) := by
  have ht := tryBlock_commit_fail srv (entryState s) ha hq hc
  have hT : (tryBlock srv (entryState s)).2 = some ⟨CR_UNKNOWN_ERROR, "commit failed"⟩ := by
    rw [ht]
  rw [executeStatement_of_no_reconnect srv s _ hT (shouldReconnect_unknown _ _)]
  simp only [caughtState]
  rw [ht]
  simp only [finishBlock_eq, entryState, State.setStatus,
    State.setAutoReconnect, Database.setAutoReconnect, State.setResultStatus, State.setError,
    State.record, Database.getAutoReconnect, filter_markSuccess, List.append_assoc,
    List.singleton_append, List.cons_append, List.nil_append]

/-- C14: for every batch in which (turning autocommit off and) every statement succeeds
but mysql_commit reports failure, executeStatement ends with the batch's result status
ERROR and the batch's error message "commit failed", calls rollback exactly once, and
leaves every unit with result status SUCCESS and finished=true, each of them put on the
completion queue, in batch order. -/
theorem executeStatement_commit_fails (srv : Server) (s : State)
    (hauto : ∀ hist, srv.mysqlAutocommit hist false = none)
    (hexec : ∀ hist (k : Nat) (hk : k < s.data.m_queries.length) d,
      srv.executeQuery hist k (s.data.m_queries[k]).1 d = none)
    (hcommit : ∀ hist, srv.mysql_commit hist ≠ 0) :
    (executeStatement srv s).1.data.base.m_resultStatus = .QUERY_ERROR ∧
    (executeStatement srv s).1.data.base.m_errorText = "commit failed" ∧
    (newCalls s (executeStatement srv s).1).count .rollback = 1 ∧
    (newCalls s (executeStatement srv s).1).count .commit = 1 ∧
    (executeStatement srv s).1.data.m_queries.map Prod.fst = s.data.m_queries.map Prod.fst ∧
    (∀ p ∈ (executeStatement srv s).1.data.m_queries,
      p.2.m_resultStatus = .QUERY_SUCCESS ∧ p.2.finished = true) ∧
    newlyFinished s (executeStatement srv s).1 = (executeStatement srv s).1.data.m_queries := by
  have h := executeStatement_commit_fail srv s (hauto _) (fun k hk => hexec _ k hk _)
    (hcommit _)
  have hn := newCalls_of_append s (executeStatement srv s).1 _ (by rw [h])
  have hf := newlyFinished_of_append s (executeStatement srv s).1 _ (by rw [h])
  rw [hn, hf]
  rw [h]
  refine ⟨rfl, rfl, ?_, ?_, ?_, ?_, rfl⟩
  · simp [List.count_cons, count_queryEvents]
  · simp [List.count_cons, count_queryEvents]
  · simp [markSuccess, Function.comp_def]
  · intro p hp
    obtain ⟨q, _, rfl⟩ := List.mem_map.mp hp
    exact ⟨rfl, rfl⟩

theorem executeStatement_commit_fails_witness :
    (executeStatement commitFailingServer
      (freshState true [7, 8])).1.data.base.m_resultStatus = .QUERY_ERROR ∧
    (executeStatement commitFailingServer
      (freshState true [7, 8])).1.data.base.m_errorText = "commit failed" ∧
    (newCalls (freshState true [7, 8]) (executeStatement commitFailingServer
      (freshState true [7, 8])).1).count .rollback = 1 ∧
    (newCalls (freshState true [7, 8]) (executeStatement commitFailingServer
      (freshState true [7, 8])).1).count .commit = 1 ∧
    (executeStatement commitFailingServer (freshState true [7, 8])).1.data.m_queries.map
      Prod.fst = (freshState true [7, 8]).data.m_queries.map Prod.fst ∧
    (∀ p ∈ (executeStatement commitFailingServer (freshState true [7, 8])).1.data.m_queries,
      p.2.m_resultStatus = .QUERY_SUCCESS ∧ p.2.finished = true) ∧
    newlyFinished (freshState true [7, 8])
        (executeStatement commitFailingServer (freshState true [7, 8])).1 =
      (executeStatement commitFailingServer (freshState true [7, 8])).1.data.m_queries :=
  executeStatement_commit_fails commitFailingServer (freshState true [7, 8])
    (fun _ => rfl) (fun _ _ _ _ => rfl) (fun _ => show (1 : Int) ≠ 0 by decide)

/-- C18: a commit failure is never retried.  Whenever (turning autocommit off and) every
statement succeeds and mysql_commit reports failure, whatever it returns, the error that
reaches the handler is the one with code CR_UNKNOWN_ERROR and message "commit failed",
which is not a connection-lost code, and executeStatement never calls mysql_ping and makes
no second attempt (autocommit is turned off once, no statement is executed twice, the
batch is not marked as retried by this call), for every value of the auto-reconnect flag
and of the retried flag at entry. -/
theorem executeStatement_commit_failure_not_retried (srv : Server) (s : State)
    (hauto : ∀ hist, srv.mysqlAutocommit hist false = none)
    (hexec : ∀ hist (k : Nat) (hk : k < s.data.m_queries.length) d,
      srv.executeQuery hist k (s.data.m_queries[k]).1 d = none)
    (hcommit : ∀ hist, srv.mysql_commit hist ≠ 0) :
    (tryBlock srv (entryState s)).2 = some ⟨CR_UNKNOWN_ERROR, "commit failed"⟩ ∧
    isConnectionLost CR_UNKNOWN_ERROR = false ∧
    (newCalls s (executeStatement srv s).1).count .ping = 0 ∧
    (newCalls s (executeStatement srv s).1).count (.autocommit false) = 1 ∧
    (∀ j, timesExecuted j (newCalls s (executeStatement srv s).1) ≤ 1) ∧
    (executeStatement srv s).1.data.retried = s.data.retried := by
  have ht := tryBlock_commit_fail srv (entryState s) (hauto _) (fun k hk => hexec _ k hk _)
    (hcommit _)
  have h := executeStatement_commit_fail srv s (hauto _) (fun k hk => hexec _ k hk _)
    (hcommit _)
  have hn := newCalls_of_append s (executeStatement srv s).1 _ (by rw [h])
  rw [hn]
  rw [h]
  refine ⟨by rw [ht], by decide, ?_, ?_, ?_, rfl⟩
  · simp [List.count_cons, count_queryEvents]
  · simp [List.count_cons, count_queryEvents]
  · intro j
    simp only [List.map_append, timesExecuted_append, timesExecuted_queryEvents]
    have e1 : timesExecuted j (List.map Event.call [⟨Call.autocommit false, false⟩]) = 0 := rfl
    have e2 : timesExecuted j (List.map Event.call
      [⟨Call.commit, false⟩, ⟨Call.rollback, false⟩, ⟨Call.autocommit true, false⟩]) = 0 := rfl
    rw [e1, e2]
    split <;> omega

theorem executeStatement_commit_failure_not_retried_witness :
    (tryBlock commitFailingServer (entryState (freshState true [7, 8]))).2 =
      some ⟨CR_UNKNOWN_ERROR, "commit failed"⟩ ∧
    isConnectionLost CR_UNKNOWN_ERROR = false ∧
    (newCalls (freshState true [7, 8]) (executeStatement commitFailingServer
      (freshState true [7, 8])).1).count .ping = 0 ∧
    (newCalls (freshState true [7, 8]) (executeStatement commitFailingServer
      (freshState true [7, 8])).1).count (.autocommit false) = 1 ∧
    (∀ j, timesExecuted j (newCalls (freshState true [7, 8])
      (executeStatement commitFailingServer (freshState true [7, 8])).1) ≤ 1) ∧
    (executeStatement commitFailingServer (freshState true [7, 8])).1.data.retried =
      (freshState true [7, 8]).data.retried :=
  executeStatement_commit_failure_not_retried commitFailingServer (freshState true [7, 8])
    (fun _ => rfl) (fun _ _ _ _ => rfl) (fun _ => show (1 : Int) ≠ 0 by decide)

/-! ## Termination and completion -/

theorem finishBlock_snd (old : Bool) (s : State) : (finishBlock old s).2 = true := by
  rw [finishBlock_eq]

/-- C15: for every finite batch and every connection behaviour whose failures are
MySQLExceptions, executeStatement is a total function: it returns `true` and leaves the
batch's status COMPLETE, with result status SUCCESS or ERROR; the error of a statement or
of the commit is kept in the batch and never leaves the call.  The nested call made for a
retry starts with retried=true and therefore makes no further nested call. -/
theorem executeStatement_completes (srv : Server) (s : State) :
    (executeStatement srv s).2 = true ∧
    (executeStatement srv s).1.data.base.m_status = .QUERY_COMPLETE ∧
    ((executeStatement srv s).1.data.base.m_resultStatus = .QUERY_SUCCESS ∨
      (executeStatement srv s).1.data.base.m_resultStatus = .QUERY_ERROR) ∧
    (∀ error, (prepareRetry (pingState srv s error)).data.retried = true ∧
      retries srv (prepareRetry (pingState srv s error)) = false) := by
  have h12 : (executeStatement srv s).2 = true ∧
      (executeStatement srv s).1.data.base.m_status = .QUERY_COMPLETE := by
    refine executeStatement_induction srv
      (fun _ r => r.2 = true ∧ r.1.data.base.m_status = .QUERY_COMPLETE) ?_ ?_ ?_ ?_ s
    · intro s _
      exact ⟨finishBlock_snd _ _, by rw [finishBlock_base]; rfl⟩
    · intro s error _ _
      exact ⟨finishBlock_snd _ _, by rw [finishBlock_base]; rfl⟩
    · intro s error _ _ _
      exact ⟨finishBlock_snd _ _, by rw [finishBlock_base]; rfl⟩
    · intro s error _ _ _ ih
      exact ih
  obtain ⟨_, _, hor⟩ := executeStatement_rollbacks srv s
  refine ⟨h12.1, h12.2, ?_, ?_⟩
  · rcases hor with ⟨a, _⟩ | ⟨a, _⟩
    · exact Or.inl a
    · exact Or.inr a
  · intro error
    exact ⟨rfl, retries_of_retried srv _ rfl⟩

/-! ## Turning autocommit back on -/

/-- The history of one call ends with turning autocommit on, and that is the only such
call. -/
theorem executeStatement_autocommit_on (srv : Server) (s : State) :
    ∃ (ev : List Event) (flag : Bool),
      (executeStatement srv s).1.connection = s.connection ++ (ev ++ [⟨.autocommit true, flag⟩]) ∧
      (ev.map Event.call).count (.autocommit true) = 0 := by
  refine executeStatement_induction srv
    (fun s r => ∃ (ev : List Event) (flag : Bool),
      r.1.connection = s.connection ++ (ev ++ [⟨.autocommit true, flag⟩]) ∧
      (ev.map Event.call).count (.autocommit true) = 0) ?_ ?_ ?_ ?_ s
  · intro s _
    obtain ⟨ev, hc, _, _, _, _, h4, _⟩ := tryBlock_calls srv (entryState s)
    refine ⟨ev, false, ?_, h4⟩
    rw [finishBlock_connection, hc, tryBlock_database]
    simp [entryState, State.setAutoReconnect, Database.setAutoReconnect, State.setStatus]
  · intro s error _ _
    obtain ⟨ev, hc, _, _, _, _, h4, _⟩ := tryBlock_calls srv (entryState s)
    refine ⟨ev ++ [⟨.rollback, false⟩], false, ?_, ?_⟩
    · rw [finishBlock_connection, caughtState_record_connection, hc]
      simp [State.record, caughtState, State.setError, State.setResultStatus, tryBlock_database,
        entryState, State.setAutoReconnect, Database.setAutoReconnect, State.setStatus]
    · simp [h4, List.count_cons]
  · intro s error _ _ _
    obtain ⟨ev, hc, _, _, _, _, h4, _⟩ := tryBlock_calls srv (entryState s)
    refine ⟨ev ++ [⟨.ping, true⟩, ⟨.rollback, true⟩], true, ?_, ?_⟩
    · rw [finishBlock_connection, pingState_record_connection, pingState_record_flag, hc]
      simp [entryState, State.setAutoReconnect, State.setStatus]
    · simp [h4, List.count_cons]
  · intro s error _ _ _ ih
    obtain ⟨ev, hc, _, _, _, _, h4, _⟩ := tryBlock_calls srv (entryState s)
    obtain ⟨ev2, flag, hc2, k⟩ := ih
    refine ⟨ev ++ [⟨.ping, true⟩] ++ ev2, flag, ?_, ?_⟩
    · show (executeStatement srv (prepareRetry (pingState srv s error))).1.connection = _
      rw [hc2]
      show (pingState srv s error).connection ++ _ = _
      rw [pingState_connection, hc]
      simp [entryState, State.setAutoReconnect, State.setStatus]
    · simp [h4, k, List.count_cons]

/-- C17: for every batch and every outcome, one call of executeStatement turns autocommit
back on exactly once, as the last call it makes on the connection, and what that call
returns changes nothing: the whole outcome (batch result status, error and the value
returned included) is the same for every answer of mysql_autocommit. -/
theorem executeStatement_autocommit_restored (srv : Server) (s : State) :
    (newCalls s (executeStatement srv s).1).count (.autocommit true) = 1 ∧
    (newCalls s (executeStatement srv s).1).getLast? = some (.autocommit true) ∧
    (∀ f, executeStatement { srv with mysql_autocommit := f } s = executeStatement srv s) ∧
    (∀ f, (executeStatement { srv with mysql_autocommit := f } s).1.data.base.m_resultStatus =
        (executeStatement srv s).1.data.base.m_resultStatus ∧
      (executeStatement { srv with mysql_autocommit := f } s).1.data.base.m_errorText =
        (executeStatement srv s).1.data.base.m_errorText ∧
      (executeStatement { srv with mysql_autocommit := f } s).2 = (executeStatement srv s).2) := by
  obtain ⟨ev, flag, hc, h0⟩ := executeStatement_autocommit_on srv s
  have hcong : ∀ f, executeStatement { srv with mysql_autocommit := f } s =
      executeStatement srv s :=
    fun f => executeStatement_congr { srv with mysql_autocommit := f } srv rfl rfl rfl rfl s
  rw [newCalls_of_append s _ _ hc]
  refine ⟨?_, ?_, hcong, ?_⟩
  · simp [h0, List.count_cons]
  · simp
  · intro f
    rw [hcong f]
    exact ⟨rfl, rfl, rfl⟩

/-! ## The batch-level error after a retry -/

/-- A `try` block that raises nothing sets the batch's result status to SUCCESS and leaves
the other batch-level fields, the error message among them, as they were. -/
theorem tryBlock_base_ok (srv : Server) (s : State) (h : (tryBlock srv s).2 = none) :
    (tryBlock srv s).1.data.base = s.data.base.setResultStatus .QUERY_SUCCESS := by
  cases ha : srv.mysqlAutocommit
      (s.connection ++ [⟨.autocommit false, s.database.m_autoReconnect⟩]) false with
  | some error =>
    simp [tryBlock, State.record, Database.getAutoReconnect, ha] at h
  | none =>
    cases hq : (executeQueries srv s.database.m_autoReconnect
      (s.connection ++ [⟨.autocommit false, s.database.m_autoReconnect⟩]) 0
      s.data.m_queries).2.2 with
    | some error =>
      simp [tryBlock, State.record, Database.getAutoReconnect, ha, hq] at h
    | none =>
      by_cases hc : srv.mysql_commit
          ((executeQueries srv s.database.m_autoReconnect
            (s.connection ++ [⟨.autocommit false, s.database.m_autoReconnect⟩]) 0
            s.data.m_queries).1 ++ [⟨.commit, s.database.m_autoReconnect⟩]) = 0
      · simp only [tryBlock, State.record, Database.getAutoReconnect, ha, hq, hc, ne_eq,
          not_true_eq_false, if_false, State.setResultStatus]
      · simp [tryBlock, State.record, Database.getAutoReconnect, ha, hq, hc] at h

/-- C19: the batch-level error message is not cleared by a retry.  For every batch whose
first attempt raises a connection-lost error with message M (auto-reconnect enabled at
entry, not yet retried), whose ping returns 0 and whose second attempt raises nothing,
executeStatement returns with retried=true and the batch's result status SUCCESS while the
batch's error message is still M. -/
theorem executeStatement_batch_error_kept (srv : Server) (s : State) (error : MySQLException)
    (hT : (tryBlock srv (entryState s)).2 = some error)
    (hl : isConnectionLost error.errorCode = true) (hr : s.data.retried = false)
    (ha : s.database.m_autoReconnect = true)
    (hp : srv.mysql_ping (pingState srv s error).connection = 0)
    (hT2 : (tryBlock srv (entryState (prepareRetry (pingState srv s error)))).2 = none) :
    (executeStatement srv s).1.data.base.m_resultStatus = .QUERY_SUCCESS ∧
    (executeStatement srv s).1.data.base.m_errorText = error.what ∧
    (executeStatement srv s).1.data.retried = true := by
  have hs : shouldReconnect s.database.m_autoReconnect s.data.retried error.errorCode
      = true := by
    unfold isConnectionLost at hl
    simp [shouldReconnect, hr, ha, hl]
  have he := executeStatement_of_retries srv s error hT hs hp
  have hin := executeStatement_of_ok srv (prepareRetry (pingState srv s error)) hT2
  have hb := tryBlock_base_ok srv (entryState (prepareRetry (pingState srv s error))) hT2
  have hret := tryBlock_retried srv (entryState (prepareRetry (pingState srv s error)))
  rw [he, hin]
  refine ⟨?_, ?_, ?_⟩
  · show (finishBlock _ _).1.data.base.m_resultStatus = _
    rw [finishBlock_base, hb]
    rfl
  · show (finishBlock _ _).1.data.base.m_errorText = _
    rw [finishBlock_base, hb]
    rfl
  · show (finishBlock _ _).1.data.retried = _
    rw [finishBlock_retried, hret]
    rfl

theorem executeStatement_batch_error_kept_witness :
    ((executeStatement (reconnectingServer 1 lostError)
        (freshState true [7, 8])).1.data.base.m_resultStatus = .QUERY_SUCCESS ∧
      (executeStatement (reconnectingServer 1 lostError)
        (freshState true [7, 8])).1.data.base.m_errorText = lostError.what ∧
      (executeStatement (reconnectingServer 1 lostError)
        (freshState true [7, 8])).1.data.retried = true) ∧
    lostError.what ≠ "" :=
  ⟨executeStatement_batch_error_kept (reconnectingServer 1 lostError) (freshState true [7, 8])
      lostError (by decide) (by decide) rfl rfl rfl (by decide),
    by decide⟩

/-! ## Units that are never reached -/

/-- C20: in a call whose attempt fails at statement i and is not retried (turning
autocommit off and the statements before i succeed, statement i raises an error whose code
is not a connection-lost code, or auto-reconnect was disabled at entry, or the batch was
already retried), every unit after position i is left untouched: its result status, error
message and finished flag (the whole unit) are as they were when the call was entered.
Every pair put on the completion queue is finished, the pairs put are the pairs 0..i
followed by the later pairs that were already finished at entry, and for a batch none of
whose units was finished at entry exactly the i+1 pairs 0..i are delivered. -/
theorem executeStatement_unreached_units (srv : Server) (s : State) (i : Nat)
    (hi : i < s.data.m_queries.length) (error : MySQLException)
    (hauto : ∀ hist, srv.mysqlAutocommit hist false = none)
    (hok : ∀ hist (k : Nat) (hk : k < i) d,
      srv.executeQuery hist k (s.data.m_queries[k]).1 d = none)
    (hfail : ∀ hist d, srv.executeQuery hist i (s.data.m_queries[i]).1 d = some error)
    (hno : isConnectionLost error.errorCode = false ∨ s.database.m_autoReconnect = false ∨
      s.data.retried = true) :
    (∀ j, i < j → (executeStatement srv s).1.data.m_queries[j]? = s.data.m_queries[j]?) ∧
    (∀ p ∈ newlyFinished s (executeStatement srv s).1, p.2.finished = true) ∧
    newlyFinished s (executeStatement srv s).1 =
      (executeStatement srv s).1.data.m_queries.take (i + 1) ++
        (s.data.m_queries.drop (i + 1)).filter (fun p => p.2.finished) ∧
    ((∀ p ∈ s.data.m_queries, p.2.finished = false) →
      newlyFinished s (executeStatement srv s).1 =
        (executeStatement srv s).1.data.m_queries.take (i + 1) ∧
      (newlyFinished s (executeStatement srv s).1).length = i + 1) := by
  have h := executeStatement_fail srv s i hi error (hauto _)
    (fun k hk => hok _ k hk _) (hfail _ _)
    (shouldReconnect_eq_false _ _ _ hno)
  have hq := executeStatement_queue srv s
  have hnew := newlyFinished_of_append s _ _ hq
  have hfin : ∀ p ∈ newlyFinished s (executeStatement srv s).1, p.2.finished = true := by
    intro p hp
    rw [hnew] at hp
    simpa using (List.mem_filter.mp hp).2
  have hmq : (executeStatement srv s).1.data.m_queries =
      (s.data.m_queries.take i).map markSuccess ++
        markError error s.data.m_queries[i] :: s.data.m_queries.drop (i + 1) := by
    rw [h]
  have hlen : ((List.take i s.data.m_queries).map markSuccess).length = i := by
    rw [List.length_map, List.length_take]; omega
  have htake : (executeStatement srv s).1.data.m_queries.take (i + 1) =
      (s.data.m_queries.take i).map markSuccess ++ [markError error s.data.m_queries[i]] := by
    rw [hmq, List.take_append_eq_append_take, hlen]
    simp [List.take_of_length_le, hlen]
  have hlist : newlyFinished s (executeStatement srv s).1 =
      (executeStatement srv s).1.data.m_queries.take (i + 1) ++
        (s.data.m_queries.drop (i + 1)).filter (fun p => p.2.finished) := by
    rw [htake]
    have := newlyFinished_of_append s (executeStatement srv s).1 _ (by rw [h])
    rw [this]
    simp
  refine ⟨?_, hfin, hlist, ?_⟩
  · intro j hj
    rw [hmq, List.getElem?_append_right (by rw [hlen]; omega), hlen]
    obtain ⟨d, rfl⟩ : ∃ d, j = i + 1 + d := ⟨j - (i + 1), by omega⟩
    have e1 : i + 1 + d - i = d + 1 := by omega
    rw [e1, List.getElem?_cons_succ, List.getElem?_drop]
  · intro hfresh
    have hnil : (s.data.m_queries.drop (i + 1)).filter (fun p => p.2.finished) = [] := by
      rw [List.filter_eq_nil_iff]
      intro p hp
      have := hfresh p (List.mem_of_mem_drop hp)
      simp [this]
    rw [hlist, hnil, List.append_nil]
    refine ⟨rfl, ?_⟩
    rw [htake, List.length_append, hlen]
    rfl

theorem executeStatement_unreached_units_witness :
    (∀ j, 0 < j → (executeStatement (failingServer 0 ⟨1064, "syntax error"⟩)
        (freshState false [7, 8, 9])).1.data.m_queries[j]? =
      (freshState false [7, 8, 9]).data.m_queries[j]?) ∧
    (∀ p ∈ newlyFinished (freshState false [7, 8, 9])
        (executeStatement (failingServer 0 ⟨1064, "syntax error"⟩)
          (freshState false [7, 8, 9])).1, p.2.finished = true) ∧
    newlyFinished (freshState false [7, 8, 9])
        (executeStatement (failingServer 0 ⟨1064, "syntax error"⟩)
          (freshState false [7, 8, 9])).1 =
      (executeStatement (failingServer 0 ⟨1064, "syntax error"⟩)
          (freshState false [7, 8, 9])).1.data.m_queries.take (0 + 1) ++
        ((freshState false [7, 8, 9]).data.m_queries.drop (0 + 1)).filter
          (fun p => p.2.finished) ∧
    ((∀ p ∈ (freshState false [7, 8, 9]).data.m_queries, p.2.finished = false) →
      newlyFinished (freshState false [7, 8, 9])
          (executeStatement (failingServer 0 ⟨1064, "syntax error"⟩)
            (freshState false [7, 8, 9])).1 =
        (executeStatement (failingServer 0 ⟨1064, "syntax error"⟩)
          (freshState false [7, 8, 9])).1.data.m_queries.take (0 + 1) ∧
      (newlyFinished (freshState false [7, 8, 9])
          (executeStatement (failingServer 0 ⟨1064, "syntax error"⟩)
            (freshState false [7, 8, 9])).1).length = 0 + 1) :=
  executeStatement_unreached_units (failingServer 0 ⟨1064, "syntax error"⟩)
    (freshState false [7, 8, 9]) 0 (by decide) ⟨1064, "syntax error"⟩
    (fun _ => rfl)
    (fun _ k hk _ => absurd hk (Nat.not_lt_zero k))
    (fun _ _ => rfl)
    (Or.inr (Or.inl rfl))

end MySQLOO
